import Mathlib

/-!
Shallow embedding of the Submission & Grading Engine of the school-LMS
backend (tRPC + drizzle handlers).  Tables are lists of rows, the relational
store is a `Store` record, and each handler becomes a pure function
`Store → … → Except Err (α × Store)` (errors are the thrown `Error` message
strings).  Timestamps are opaque `Nat` tick values passed as a `now`
parameter; JS numbers are `ℚ` (the columns involved are numeric), derived
percentages are `ℤ` (result of `Math.round`).  JS falsy-coalescing
(`x || null`, `x || default`) is modelled explicitly, since `""` and `0`
are falsy.
-/

namespace SchoolLMS

/-- `submissionStatusSchema` enum. -/
inductive SubmissionStatus
  | pending
  | submitted
  | graded
  | returned
deriving DecidableEq

/-- Row of `usersTable` (fields read by the embedded handlers only). -/
structure UserRow where
  id : Nat
  first_name : String
  last_name : String
  email : String
deriving DecidableEq

/-- Row of `classesTable` (fields read by the embedded handlers only). -/
structure ClassRow where
  id : Nat
  teacher_id : Nat
deriving DecidableEq

/-- Row of `classEnrollmentsTable`. -/
structure EnrollmentRow where
  user_id : Nat
  class_id : Nat
deriving DecidableEq

/-- Row of `assignmentsTable` (fields read by the embedded handlers only). -/
structure AssignmentRow where
  id : Nat
  class_id : Nat
  teacher_id : Nat
  title : String
  max_points : Option ℤ
deriving DecidableEq

/-- Row of `submissionsTable` (the serial `created_at` column is never read
by the embedded handlers and is omitted). -/
structure SubmissionRow where
  id : Nat
  assignment_id : Nat
  student_id : Nat
  content : Option String
  status : SubmissionStatus
  points_earned : Option ℤ
  grade_feedback : Option String
  submitted_at : Option Nat
  graded_at : Option Nat
  graded_by : Option Nat
  updated_at : Nat
deriving DecidableEq

/-- Row of `quizQuestionsTable`. -/
structure QuizQuestionRow where
  id : Nat
  assignment_id : Nat
  question_text : String
  question_type : String
  correct_answer : Option String
  answer_choices : Option String
  points : ℤ
  order_index : Int
deriving DecidableEq

/-- Row of `quizAnswersTable` (the serial primary key is never read by the
embedded handlers and is omitted). -/
structure QuizAnswerRow where
  submission_id : Nat
  question_id : Nat
  answer_text : String
  is_correct : Option Bool
  points_earned : ℤ
deriving DecidableEq

/-- Row of `gradebookTable`. -/
structure GradebookRow where
  id : Nat
  student_id : Nat
  class_id : Nat
  assignment_id : Nat
  points_earned : Option ℤ
  points_possible : ℤ
  percentage : Option ℤ
  letter_grade : Option String
  is_excused : Bool
  updated_at : Nat
deriving DecidableEq

/-- Row of `notificationsTable` (serial key / `is_read` default omitted,
never read by the embedded handlers). -/
structure NotificationRow where
  user_id : Nat
  title : String
  message : String
  ntype : String
  class_id : Option Nat
  assignment_id : Option Nat
deriving DecidableEq

/-- The relational store: one list per table, plus the serial-id counters
the embedded handlers allocate from. -/
structure Store where
  users : List UserRow
  classes : List ClassRow
  enrollments : List EnrollmentRow
  assignments : List AssignmentRow
  submissions : List SubmissionRow
  quizQuestions : List QuizQuestionRow
  quizAnswers : List QuizAnswerRow
  gradebook : List GradebookRow
  notifications : List NotificationRow
  nextSubmissionId : Nat
  nextGradebookId : Nat
deriving DecidableEq

/-- Thrown `Error` messages, verbatim from the source. -/
abbrev Err := String

/-- JS `s || null` on a nullable string: `null` and `""` are falsy. -/
def jsStrOrNull : Option String → Option String
  | some s => if s = "" then none else some s
  | none => none

/-- JS `x || d` on a nullable number: `null` and `0` are falsy
(`assignment.max_points || 100`). -/
def jsNumOr (x : Option ℤ) (d : ℤ) : ℤ :=
  match x with
  | some v => if v = 0 then d else v
  | none => d

/-- JS `p || null` on the nullable integer `percentage` column: `null` and
`0` are falsy (`entry.percentage || null`). -/
def jsPctOrNull : Option ℤ → Option ℤ
  | some p => if p = 0 then none else some p
  | none => none

/-- JS truthiness of a nullable string (`questionData.correct_answer && …`):
`null` and `""` are falsy. -/
def jsStrTruthy : Option String → Bool
  | some s => s ≠ ""
  | none => false

/-! ### createSubmission (submissions handler) -/

/-- `createSubmissionInputSchema`. -/
structure CreateSubmissionInput where
  assignment_id : Nat
  content : Option String
deriving DecidableEq

/-- The in-place update applied to the existing row on re-submission
(`db.update(submissionsTable).set({content, status, submitted_at, updated_at})`). -/
def resubmitUpdate (targetId : Nat) (content : Option String) (now : Nat)
    (r : SubmissionRow) : SubmissionRow :=
  if r.id == targetId then
    { r with content := jsStrOrNull content, status := .submitted,
             submitted_at := some now, updated_at := now }
  else r

/-- The `WHERE assignment_id = … AND student_id = …` predicate on
Submission rows. -/
def pairP (assignmentId studentId : Nat) (r : SubmissionRow) : Bool :=
  r.assignment_id == assignmentId && r.student_id == studentId

/-- The row inserted by `createSubmission` when no Submission exists yet for
the (assignment, student) pair. -/
def freshSubmission (s : Store) (input : CreateSubmissionInput)
    (studentId : Nat) (now : Nat) : SubmissionRow :=
  { id := s.nextSubmissionId, assignment_id := input.assignment_id,
    student_id := studentId, content := jsStrOrNull input.content,
    status := .submitted, points_earned := none, grade_feedback := none,
    submitted_at := some now, graded_at := none, graded_by := none,
    updated_at := now }

/-- `createSubmission(input, studentId)`: verify the assignment exists,
verify enrollment, then update the existing row for the
(assignment, student) pair in place, or insert a fresh one. -/
def createSubmission (s : Store) (input : CreateSubmissionInput)
    (studentId : Nat) (now : Nat) : Except Err (SubmissionRow × Store) :=
  match s.assignments.find? (fun a => a.id == input.assignment_id) with
  | none => .error "Assignment not found"
  | some assignment =>
    match s.enrollments.find? (fun e =>
        e.user_id == studentId && e.class_id == assignment.class_id) with
    | none => .error "Student not enrolled in class"
    | some _ =>
      match s.submissions.find? (pairP input.assignment_id studentId) with
      | some existing =>
        let upd := resubmitUpdate existing.id input.content now
        .ok (upd existing, { s with submissions := s.submissions.map upd })
      | none =>
        let row := freshSubmission s input studentId now
        .ok (row, { s with submissions := s.submissions ++ [row],
                           nextSubmissionId := s.nextSubmissionId + 1 })

/-- Number of Submission rows stored for one (assignment, student) pair. -/
def pairCount (s : Store) (assignmentId studentId : Nat) : Nat :=
  s.submissions.countP (pairP assignmentId studentId)

/-! ### Quiz engine (quizzes handler) -/

/-- `assignments INNER JOIN classes ON class_id` filtered to one assignment id. -/
def findAssignmentJoinClass (s : Store) (assignmentId : Nat) :
    Option (AssignmentRow × ClassRow) :=
  match s.assignments.find? (fun a => a.id == assignmentId) with
  | none => none
  | some a =>
    match s.classes.find? (fun c => c.id == a.class_id) with
    | none => none
    | some c => some (a, c)

/-- `quizQuestions INNER JOIN assignments` filtered to one question id. -/
def findQuestionJoinAssignment (s : Store) (questionId : Nat) :
    Option (QuizQuestionRow × AssignmentRow) :=
  match s.quizQuestions.find? (fun q => q.id == questionId) with
  | none => none
  | some q =>
    match s.assignments.find? (fun a => a.id == q.assignment_id) with
    | none => none
    | some a => some (q, a)

/-- Stable insertion into a list sorted ascending by `order_index`
(models `orderBy(asc(order_index))`). -/
def insertByOrder (q : QuizQuestionRow) : List QuizQuestionRow → List QuizQuestionRow
  | [] => [q]
  | r :: rs =>
    if q.order_index ≤ r.order_index then q :: r :: rs else r :: insertByOrder q rs

/-- Stable sort ascending by `order_index`. -/
def sortByOrderIndex : List QuizQuestionRow → List QuizQuestionRow
  | [] => []
  | q :: qs => insertByOrder q (sortByOrderIndex qs)

/-- `getQuizQuestions(assignmentId, userId)`: teacher or enrolled student may
read; for non-teachers every returned question has `correct_answer`
replaced by `null`. -/
def getQuizQuestions (s : Store) (assignmentId userId : Nat) :
    Except Err (List QuizQuestionRow) :=
  match findAssignmentJoinClass s assignmentId with
  | none => .error "Assignment not found"
  | some (assignment, classInfo) =>
    if !(assignment.teacher_id == userId) &&
        (s.enrollments.find? (fun e =>
          e.user_id == userId && e.class_id == classInfo.id)).isNone then
      .error "Access denied"
    else if !(assignment.teacher_id == userId) then
      .ok ((sortByOrderIndex (s.quizQuestions.filter
            (fun q => q.assignment_id == assignmentId))).map
          (fun q => { q with correct_answer := none }))
    else
      .ok (sortByOrderIndex (s.quizQuestions.filter
            (fun q => q.assignment_id == assignmentId)))

/-- The reindex step of `deleteQuizQuestion`: every remaining question of the
same assignment with a larger `order_index` is shifted down by one. -/
def shiftAfterDeletion (assignmentId : Nat) (deletedIndex : Int)
    (r : QuizQuestionRow) : QuizQuestionRow :=
  if r.assignment_id == assignmentId && deletedIndex < r.order_index then
    { r with order_index := r.order_index - 1 }
  else r

/-- `deleteQuizQuestion(questionId, teacherId)`: ownership-checked delete
plus contiguity repair. -/
def deleteQuizQuestion (s : Store) (questionId teacherId : Nat) :
    Except Err (Unit × Store) :=
  match findQuestionJoinAssignment s questionId with
  | none => .error "Quiz question not found"
  | some (question, assignment) =>
    if assignment.teacher_id == teacherId then
      .ok ((), { s with quizQuestions :=
        ((s.quizQuestions.filter (fun r => !(r.id == questionId))).map
          (shiftAfterDeletion question.assignment_id question.order_index)) })
    else
      .error "Access denied - not assignment owner"

/-- One element of the `answers` array of `submitQuizAnswers`. -/
structure AnswerInput where
  questionId : Nat
  answerText : String
deriving DecidableEq

/-- Whitespace-trim on a character list (JS `trim`: drop leading and
trailing whitespace). -/
def trimChars (l : List Char) : List Char :=
  ((l.dropWhile Char.isWhitespace).reverse.dropWhile Char.isWhitespace).reverse

/-- `answerText.toLowerCase().trim()`, modelled structurally over the
character list so it evaluates on concrete inputs. -/
def normalizeAnswer (s : String) : String :=
  String.mk (trimChars (s.data.map Char.toLower))

/-- The auto-scoring guard
`questionData.correct_answer && questionData.question_type !== 'essay'`
(JS truthiness: a `null` or `""` answer key disables auto-scoring). -/
def autoScorable (q : QuizQuestionRow) : Bool :=
  jsStrTruthy q.correct_answer && !(q.question_type == "essay")

/-- Case-insensitive whitespace-trimmed comparison against the answer key. -/
def answerCorrect (q : QuizQuestionRow) (text : String) : Bool :=
  match q.correct_answer with
  | some c => normalizeAnswer text == normalizeAnswer c
  | none => false

/-- The `isCorrect` local of `submitQuizAnswers`: initialized `false`, set
only inside the auto-scoring branch. -/
def scoredIsCorrect (q : QuizQuestionRow) (text : String) : Bool :=
  autoScorable q && answerCorrect q text

/-- The `pointsEarned` local of `submitQuizAnswers`: `question.points` if
auto-scored correct, `0` otherwise. -/
def awardedPoints (q : QuizQuestionRow) (text : String) : ℤ :=
  if scoredIsCorrect q text then q.points else 0

/-- The QuizAnswer row inserted for one processed answer: correctness flag
`null` for essay questions, the computed flag otherwise. -/
def storedAnswerRow (submissionId : Nat) (q : QuizQuestionRow) (text : String) :
    QuizAnswerRow :=
  { submission_id := submissionId, question_id := q.id, answer_text := text,
    is_correct := if q.question_type == "essay" then none else some (scoredIsCorrect q text),
    points_earned := awardedPoints q text }

/-- Loop body of `submitQuizAnswers`: look the question up (skipping unknown
ids), accumulate the awarded points, delete any prior answer for the
(submission, question) pair and insert the new one. -/
def processAnswer (submissionId : Nat) (acc : ℤ × Store) (ans : AnswerInput) :
    ℤ × Store :=
  let (total, s) := acc
  match s.quizQuestions.find? (fun q => q.id == ans.questionId) with
  | none => (total, s)
  | some q =>
    (total + awardedPoints q ans.answerText,
     { s with quizAnswers :=
        ((s.quizAnswers.filter (fun r =>
            !(r.submission_id == submissionId && r.question_id == ans.questionId))) ++
          [storedAnswerRow submissionId q ans.answerText]) })

/-- Final submission update of `submitQuizAnswers`: write the auto-score
total, set status to `submitted`, refresh `submitted_at`. -/
def finalizeQuizSubmission (submissionId : Nat) (total : ℤ) (now : Nat)
    (r : SubmissionRow) : SubmissionRow :=
  if r.id == submissionId then
    { r with points_earned := some total, status := .submitted,
             submitted_at := some now }
  else r

/-- `submitQuizAnswers(submissionId, answers)`: process every answer, then
write the accumulated auto-score total to the submission, set its status to
`submitted` and refresh `submitted_at`. -/
def submitQuizAnswers (s : Store) (submissionId : Nat) (answers : List AnswerInput)
    (now : Nat) : Except Err (Unit × Store) :=
  match s.submissions.find? (fun r => r.id == submissionId) with
  | none => .error "Submission not found"
  | some _ =>
    let result := answers.foldl (processAnswer submissionId) (0, s)
    .ok ((), { result.2 with submissions :=
      (result.2.submissions.map (finalizeQuizSubmission submissionId result.1 now)) })

/-- The auto-score total of an answer list against a question table:
unknown question ids, essay questions and keyless questions contribute 0. -/
def quizTotalPoints (questions : List QuizQuestionRow) (answers : List AnswerInput) : ℤ :=
  (answers.map (fun ans =>
    match questions.find? (fun q => q.id == ans.questionId) with
    | some q => awardedPoints q ans.answerText
    | none => 0)).sum

/-! ### Gradebook projector (gradebook handler) -/

/-- `Math.round((pointsEarned / pointsPossible) * 100)`: real division on JS
numbers, rounded half-up to an integer. -/
def computePercentage (pointsEarned pointsPossible : ℤ) : ℤ :=
  round ((pointsEarned : ℚ) / (pointsPossible : ℚ) * 100)

/-- The letter-grade threshold chain of `updateGradebookEntry`. -/
def letterGradeOf (percentage : ℤ) : String :=
  if percentage ≥ 90 then "A"
  else if percentage ≥ 80 then "B"
  else if percentage ≥ 70 then "C"
  else if percentage ≥ 60 then "D"
  else "F"

/-- `assignments INNER JOIN classes ON class_id WHERE assignments.id = …
AND classes.teacher_id = …`. -/
def findAssignmentOwnedJoin (s : Store) (assignmentId teacherId : Nat) :
    Option (AssignmentRow × ClassRow) :=
  match s.assignments.find? (fun a => a.id == assignmentId) with
  | none => none
  | some a =>
    match s.classes.find? (fun c => c.id == a.class_id) with
    | none => none
    | some c => if c.teacher_id == teacherId then some (a, c) else none

/-- The `WHERE student_id = … AND assignment_id = …` predicate on
GradebookEntry rows. -/
def gbPairP (studentId assignmentId : Nat) (g : GradebookRow) : Bool :=
  g.student_id == studentId && g.assignment_id == assignmentId

/-- The handlers return gradebook entries through `percentage || null`. -/
def pctMask (g : GradebookRow) : GradebookRow :=
  { g with percentage := jsPctOrNull g.percentage }

/-- The `updateGradebookEntry` update applied to existing pair rows
(`set({points_earned, percentage, letter_grade, is_excused, updated_at})`). -/
def gradeEntryUpdate (studentId assignmentId : Nat) (pointsEarned percentage : ℤ)
    (letterGrade : String) (now : Nat) (g : GradebookRow) : GradebookRow :=
  if gbPairP studentId assignmentId g then
    { g with points_earned := some pointsEarned, percentage := some percentage,
             letter_grade := some letterGrade, is_excused := false,
             updated_at := now }
  else g

/-- `updateGradebookEntry(studentId, assignmentId, pointsEarned, teacherId)`:
ownership-checked upsert of the (student, assignment) gradebook row with
derived percentage and letter grade. -/
def updateGradebookEntry (s : Store) (studentId assignmentId : Nat)
    (pointsEarned : ℤ) (teacherId now : Nat) :
    Except Err (GradebookRow × Store) :=
  match findAssignmentOwnedJoin s assignmentId teacherId with
  | none => .error "Assignment not found or access denied"
  | some (assignment, classData) =>
    let pointsPossible := jsNumOr assignment.max_points 100
    let percentage := computePercentage pointsEarned pointsPossible
    let letterGrade := letterGradeOf percentage
    match s.gradebook.find? (gbPairP studentId assignmentId) with
    | some existing =>
      let upd := gradeEntryUpdate studentId assignmentId pointsEarned percentage
        letterGrade now
      .ok (pctMask (upd existing), { s with gradebook := s.gradebook.map upd })
    | none =>
      let row : GradebookRow :=
        { id := s.nextGradebookId, student_id := studentId,
          class_id := classData.id, assignment_id := assignmentId,
          points_earned := some pointsEarned, points_possible := pointsPossible,
          percentage := some percentage, letter_grade := some letterGrade,
          is_excused := false, updated_at := now }
      .ok (pctMask row, { s with gradebook := s.gradebook ++ [row],
                                 nextGradebookId := s.nextGradebookId + 1 })

/-- The `excuseAssignment` update applied to existing pair rows: clear all
grade fields, set `is_excused`. -/
def excuseEntryUpdate (studentId assignmentId : Nat) (now : Nat)
    (g : GradebookRow) : GradebookRow :=
  if gbPairP studentId assignmentId g then
    { g with points_earned := none, percentage := none, letter_grade := none,
             is_excused := true, updated_at := now }
  else g

/-- `excuseAssignment(studentId, assignmentId, teacherId)`: ownership-checked
upsert marking the pair excused and clearing the grade fields. -/
def excuseAssignment (s : Store) (studentId assignmentId teacherId now : Nat) :
    Except Err (GradebookRow × Store) :=
  match findAssignmentOwnedJoin s assignmentId teacherId with
  | none => .error "Assignment not found or access denied"
  | some (assignment, classData) =>
    let pointsPossible := jsNumOr assignment.max_points 100
    match s.gradebook.find? (gbPairP studentId assignmentId) with
    | some existing =>
      let upd := excuseEntryUpdate studentId assignmentId now
      .ok (pctMask (upd existing), { s with gradebook := s.gradebook.map upd })
    | none =>
      let row : GradebookRow :=
        { id := s.nextGradebookId, student_id := studentId,
          class_id := classData.id, assignment_id := assignmentId,
          points_earned := none, points_possible := pointsPossible,
          percentage := none, letter_grade := none, is_excused := true,
          updated_at := now }
      .ok (pctMask row, { s with gradebook := s.gradebook ++ [row],
                                 nextGradebookId := s.nextGradebookId + 1 })

/-- `getGradebookByClass(classId, teacherId)`: ownership-checked read of the
class's entries, each passed through `percentage || null`. -/
def getGradebookByClass (s : Store) (classId teacherId : Nat) :
    Except Err (List GradebookRow) :=
  match s.classes.find? (fun c => c.id == classId && c.teacher_id == teacherId) with
  | none => .error "Class not found or access denied"
  | some _ => .ok ((s.gradebook.filter (fun g => g.class_id == classId)).map pctMask)

/-- `getStudentGrades(studentId, classId?)`: unchecked read of a student's
entries, optionally filtered by class, each passed through
`percentage || null`. -/
def getStudentGrades (s : Store) (studentId : Nat) (classId : Option Nat) :
    List GradebookRow :=
  ((s.gradebook.filter (fun g =>
      g.student_id == studentId &&
        (match classId with
         | none => true
         | some cid => g.class_id == cid))).map pctMask)

/-- One row of the `exportGradebook` result. -/
structure ExportRow where
  student_id : Nat
  student_first_name : String
  student_last_name : String
  assignment_id : Nat
  assignment_title : String
  points_earned : Option ℤ
  points_possible : ℤ
  percentage : Option ℤ
  letter_grade : Option String
  is_excused : Bool
  updated_at : Nat
deriving DecidableEq

/-- The export row built from a gradebook entry joined with its student and
assignment; `percentage || null` applied. -/
def exportRowOf (u : UserRow) (a : AssignmentRow) (g : GradebookRow) : ExportRow :=
  { student_id := g.student_id, student_first_name := u.first_name,
    student_last_name := u.last_name, assignment_id := g.assignment_id,
    assignment_title := a.title, points_earned := g.points_earned,
    points_possible := g.points_possible, percentage := jsPctOrNull g.percentage,
    letter_grade := g.letter_grade, is_excused := g.is_excused,
    updated_at := g.updated_at }

/-- `exportGradebook(classId, teacherId)`: ownership-checked read joining
each class entry with its student and assignment rows (inner joins). -/
def exportGradebook (s : Store) (classId teacherId : Nat) :
    Except Err (List ExportRow) :=
  match s.classes.find? (fun c => c.id == classId && c.teacher_id == teacherId) with
  | none => .error "Class not found or access denied"
  | some _ =>
    .ok ((s.gradebook.filter (fun g => g.class_id == classId)).filterMap (fun g =>
      match s.users.find? (fun u => u.id == g.student_id),
            s.assignments.find? (fun a => a.id == g.assignment_id) with
      | some u, some a => some (exportRowOf u a g)
      | _, _ => none))

/-! ### Grading and revision (submissions handler, continued) -/

/-- `submissions INNER JOIN assignments` filtered to one submission id. -/
def findSubmissionJoinAssignment (s : Store) (submissionId : Nat) :
    Option (SubmissionRow × AssignmentRow) :=
  match s.submissions.find? (fun r => r.id == submissionId) with
  | none => none
  | some sub =>
    match s.assignments.find? (fun a => a.id == sub.assignment_id) with
    | none => none
    | some a => some (sub, a)

/-- `gradeSubmissionInputSchema` (`points_earned` is nonnegative by zod). -/
structure GradeSubmissionInput where
  submission_id : Nat
  points_earned : ℤ
  grade_feedback : Option String
deriving DecidableEq

/-- The submission update of `gradeSubmission`. -/
def gradeSubmissionUpdate (input : GradeSubmissionInput) (teacherId now : Nat)
    (r : SubmissionRow) : SubmissionRow :=
  if r.id == input.submission_id then
    { r with status := .graded, points_earned := some input.points_earned,
             grade_feedback := jsStrOrNull input.grade_feedback,
             graded_at := some now, graded_by := some teacherId,
             updated_at := now }
  else r

/-- The gradebook update of `gradeSubmission` (by row id; does not set
letter_grade or is_excused). -/
def gradeGbUpdate (targetId : Nat) (pointsEarned pointsPossible percentage : ℤ)
    (now : Nat) (g : GradebookRow) : GradebookRow :=
  if g.id == targetId then
    { g with points_earned := some pointsEarned,
             points_possible := pointsPossible, percentage := some percentage,
             updated_at := now }
  else g

/-- The `grade_received` notification inserted by `gradeSubmission`. -/
def gradedNotification (sub : SubmissionRow) (a : AssignmentRow) : NotificationRow :=
  { user_id := sub.student_id, title := "Assignment Graded",
    message := "Your submission for \"" ++ a.title ++ "\" has been graded.",
    ntype := "grade_received", class_id := some a.class_id,
    assignment_id := some a.id }

/-- `gradeSubmission(input, teacherId)`: ownership-checked grading of a
submission, with gradebook upsert and student notification. -/
def gradeSubmission (s : Store) (input : GradeSubmissionInput)
    (teacherId now : Nat) : Except Err (SubmissionRow × Store) :=
  match findSubmissionJoinAssignment s input.submission_id with
  | none => .error "Submission not found"
  | some (submission, assignment) =>
    if assignment.teacher_id == teacherId then
      let pointsPossible := jsNumOr assignment.max_points 100
      let percentage := computePercentage input.points_earned pointsPossible
      match s.gradebook.find? (gbPairP submission.student_id assignment.id) with
      | some existing =>
        .ok (gradeSubmissionUpdate input teacherId now submission,
          { s with
              submissions := (s.submissions.map (gradeSubmissionUpdate input teacherId now)),
              gradebook := (s.gradebook.map (gradeGbUpdate existing.id
                input.points_earned pointsPossible percentage now)),
              notifications := (s.notifications ++ [gradedNotification submission assignment]) })
      | none =>
        .ok (gradeSubmissionUpdate input teacherId now submission,
          { s with
              submissions := (s.submissions.map (gradeSubmissionUpdate input teacherId now)),
              gradebook := (s.gradebook ++
                [{ id := s.nextGradebookId, student_id := submission.student_id,
                   class_id := assignment.class_id, assignment_id := assignment.id,
                   points_earned := some input.points_earned,
                   points_possible := pointsPossible, percentage := some percentage,
                   letter_grade := none, is_excused := false, updated_at := now }]),
              nextGradebookId := s.nextGradebookId + 1,
              notifications := (s.notifications ++ [gradedNotification submission assignment]) })
    else
      .error "Teacher not authorized to grade this submission"

/-- The submission update of `returnSubmissionForRevision` (`points_earned`
and the gradebook are not touched). -/
def returnUpdate (submissionId : Nat) (feedback : String) (teacherId now : Nat)
    (r : SubmissionRow) : SubmissionRow :=
  if r.id == submissionId then
    { r with status := .returned, grade_feedback := some feedback,
             graded_by := some teacherId, updated_at := now }
  else r

/-- The `comment_added` notification inserted by `returnSubmissionForRevision`. -/
def returnedNotification (sub : SubmissionRow) (a : AssignmentRow) : NotificationRow :=
  { user_id := sub.student_id, title := "Submission Returned",
    message := "Your submission for \"" ++ a.title ++
      "\" has been returned for revision.",
    ntype := "comment_added", class_id := some a.class_id,
    assignment_id := some a.id }

/-- `returnSubmissionForRevision(submissionId, feedback, teacherId)`. -/
def returnSubmissionForRevision (s : Store) (submissionId : Nat)
    (feedback : String) (teacherId now : Nat) :
    Except Err (SubmissionRow × Store) :=
  match findSubmissionJoinAssignment s submissionId with
  | none => .error "Submission not found"
  | some (submission, assignment) =>
    if assignment.teacher_id == teacherId then
      .ok (returnUpdate submissionId feedback teacherId now submission,
        { s with
            submissions := (s.submissions.map
              (returnUpdate submissionId feedback teacherId now)),
            notifications := (s.notifications ++
              [returnedNotification submission assignment]) })
    else
      .error "Teacher not authorized to return this submission"

/-- `getSubmissionsByAssignment(assignmentId, teacherId)`: the ownership
check is a single `WHERE id = … AND teacher_id = …` query. -/
def getSubmissionsByAssignment (s : Store) (assignmentId teacherId : Nat) :
    Except Err (List SubmissionRow) :=
  match s.assignments.find? (fun a =>
      a.id == assignmentId && a.teacher_id == teacherId) with
  | none => .error "Assignment not found or not owned by teacher"
  | some _ => .ok (s.submissions.filter (fun r => r.assignment_id == assignmentId))

/-! ### Concrete stores and inputs used by the witness theorems -/

/-- Concrete store: class 1 owned by teacher 1, student 2 enrolled,
assignment 10 in class 1, no submissions yet. -/
def c1Store : Store :=
  { users := [], classes := [{ id := 1, teacher_id := 1 }],
    enrollments := [{ user_id := 2, class_id := 1 }],
    assignments := [{ id := 10, class_id := 1, teacher_id := 1,
                      title := "HW1", max_points := some 100 }],
    submissions := [], quizQuestions := [], quizAnswers := [], gradebook := [],
    notifications := [], nextSubmissionId := 1, nextGradebookId := 1 }

/-- An objective question whose key is `"4"`. -/
def c2q : QuizQuestionRow :=
  { id := 1, assignment_id := 10, question_text := "2+2?",
    question_type := "multiple_choice", correct_answer := some "4",
    answer_choices := none, points := 5, order_index := 1 }

/-- An essay question (with a key present, which auto-scoring must ignore). -/
def c2qEssay : QuizQuestionRow :=
  { id := 2, assignment_id := 10, question_text := "Discuss.",
    question_type := "essay", correct_answer := some "anything",
    answer_choices := none, points := 5, order_index := 2 }

/-- A non-essay question whose answer key is the non-null empty string: JS
truthiness makes `correct_answer && …` skip the auto-scoring branch. -/
def c2qEmpty : QuizQuestionRow :=
  { id := 1, assignment_id := 10, question_text := "say nothing",
    question_type := "multiple_choice", correct_answer := some "",
    answer_choices := none, points := 5, order_index := 1 }

/-- Store with one submission (id 1) and the empty-key question. -/
def c2CexStore : Store :=
  { users := [], classes := [{ id := 1, teacher_id := 1 }], enrollments := [],
    assignments := [{ id := 10, class_id := 1, teacher_id := 1,
                      title := "Quiz", max_points := some 100 }],
    submissions := [{ id := 1, assignment_id := 10, student_id := 2,
                      content := none, status := .pending, points_earned := none,
                      grade_feedback := none, submitted_at := none,
                      graded_at := none, graded_by := none, updated_at := 0 }],
    quizQuestions := [c2qEmpty], quizAnswers := [], gradebook := [],
    notifications := [], nextSubmissionId := 2, nextGradebookId := 1 }

/-- Teacher 1's quiz (assignment 10) with three questions at contiguous
order indices 1, 2, 3. -/
def c3Store : Store :=
  { users := [], classes := [{ id := 1, teacher_id := 1 }], enrollments := [],
    assignments := [{ id := 10, class_id := 1, teacher_id := 1,
                      title := "Quiz", max_points := some 100 }],
    submissions := [],
    quizQuestions :=
      [{ id := 11, assignment_id := 10, question_text := "q1",
         question_type := "multiple_choice", correct_answer := some "a",
         answer_choices := none, points := 1, order_index := 1 },
       { id := 12, assignment_id := 10, question_text := "q2",
         question_type := "multiple_choice", correct_answer := some "b",
         answer_choices := none, points := 1, order_index := 2 },
       { id := 13, assignment_id := 10, question_text := "q3",
         question_type := "multiple_choice", correct_answer := some "c",
         answer_choices := none, points := 1, order_index := 3 }],
    quizAnswers := [], gradebook := [], notifications := [],
    nextSubmissionId := 1, nextGradebookId := 1 }

/-- One pending quiz submission (id 1) over a two-question quiz: an
objective question worth 5 points with key "4" and an essay question. -/
def c6Store : Store :=
  { users := [], classes := [{ id := 1, teacher_id := 1 }],
    enrollments := [{ user_id := 2, class_id := 1 }],
    assignments := [{ id := 10, class_id := 1, teacher_id := 1,
                      title := "Quiz", max_points := some 100 }],
    submissions := [{ id := 1, assignment_id := 10, student_id := 2,
                      content := none, status := .pending, points_earned := none,
                      grade_feedback := none, submitted_at := none,
                      graded_at := none, graded_by := none, updated_at := 0 }],
    quizQuestions :=
      [{ id := 11, assignment_id := 10, question_text := "2+2?",
         question_type := "multiple_choice", correct_answer := some "4",
         answer_choices := none, points := 5, order_index := 1 },
       { id := 12, assignment_id := 10, question_text := "Discuss.",
         question_type := "essay", correct_answer := none,
         answer_choices := none, points := 5, order_index := 2 }],
    quizAnswers := [], gradebook := [],
    notifications := [], nextSubmissionId := 2, nextGradebookId := 1 }

/-- Teacher 1's class 1 with assignment 20 (100 points) and no gradebook
rows yet. -/
def c4Store : Store :=
  { users := [], classes := [{ id := 1, teacher_id := 1 }],
    enrollments := [],
    assignments := [{ id := 20, class_id := 1, teacher_id := 1,
                      title := "HW2", max_points := some 100 }],
    submissions := [], quizQuestions := [], quizAnswers := [], gradebook := [],
    notifications := [], nextSubmissionId := 1, nextGradebookId := 1 }

/-- Class 1 (teacher 1) with assignment 20 already graded 85% for
student 2. -/
def c5Store : Store :=
  { users := [], classes := [{ id := 1, teacher_id := 1 }],
    enrollments := [],
    assignments := [{ id := 20, class_id := 1, teacher_id := 1,
                      title := "HW2", max_points := some 100 }],
    submissions := [], quizQuestions := [], quizAnswers := [],
    gradebook := [{ id := 1, student_id := 2, class_id := 1, assignment_id := 20,
                    points_earned := some 85, points_possible := 100,
                    percentage := some 85, letter_grade := some "B",
                    is_excused := false, updated_at := 3 }],
    notifications := [], nextSubmissionId := 1, nextGradebookId := 2 }

/-- A graded submission (id 1, 80 points) on teacher 1's assignment 10. -/
def c8Store : Store :=
  { users := [], classes := [{ id := 1, teacher_id := 1 }],
    enrollments := [{ user_id := 2, class_id := 1 }],
    assignments := [{ id := 10, class_id := 1, teacher_id := 1,
                      title := "HW1", max_points := some 100 }],
    submissions := [{ id := 1, assignment_id := 10, student_id := 2,
                      content := some "essay", status := .graded,
                      points_earned := some 80, grade_feedback := some "ok",
                      submitted_at := some 2, graded_at := some 3,
                      graded_by := some 1, updated_at := 3 }],
    quizQuestions := [], quizAnswers := [], gradebook := [],
    notifications := [], nextSubmissionId := 2, nextGradebookId := 1 }

/-- The error message of a failed call, `none` on success. -/
def errOf {α : Type} : Except Err α → Option Err
  | .error e => some e
  | .ok _ => none

/-- Class 1 is owned by teacher 1; assignment 5 (with question 9 and graded
submission 7) belongs to it.  Teacher 2 owns nothing here. -/
def c7Store : Store :=
  { users := [], classes := [{ id := 1, teacher_id := 1 }],
    enrollments := [{ user_id := 3, class_id := 1 }],
    assignments := [{ id := 5, class_id := 1, teacher_id := 1,
                      title := "HW", max_points := some 100 }],
    submissions := [{ id := 7, assignment_id := 5, student_id := 3,
                      content := some "w", status := .submitted,
                      points_earned := none, grade_feedback := none,
                      submitted_at := some 2, graded_at := none,
                      graded_by := none, updated_at := 2 }],
    quizQuestions := [{ id := 9, assignment_id := 5, question_text := "q",
                        question_type := "multiple_choice",
                        correct_answer := some "a", answer_choices := none,
                        points := 1, order_index := 1 }],
    quizAnswers := [], gradebook := [], notifications := [],
    nextSubmissionId := 8, nextGradebookId := 1 }

/-- Class 1 (teacher 1) with a recorded 0% grade for student 2 on
assignment 20. -/
def c10Store : Store :=
  { users := [{ id := 2, first_name := "Ann", last_name := "Lee",
                email := "ann@x.y" }],
    classes := [{ id := 1, teacher_id := 1 }],
    enrollments := [],
    assignments := [{ id := 20, class_id := 1, teacher_id := 1,
                      title := "HW2", max_points := some 100 }],
    submissions := [], quizQuestions := [], quizAnswers := [],
    gradebook := [{ id := 1, student_id := 2, class_id := 1, assignment_id := 20,
                    points_earned := some 0, points_possible := 100,
                    percentage := some 0, letter_grade := some "F",
                    is_excused := false, updated_at := 3 }],
    notifications := [], nextSubmissionId := 1, nextGradebookId := 2 }

/-! ### Generic list lemmas used throughout -/

theorem find?_map_pres {α : Type} (f : α → α) (p : α → Bool)
    (hp : ∀ x, p (f x) = p x) :
    ∀ l : List α, (l.map f).find? p = (l.find? p).map f := by
  intro l
  induction l with
  | nil => rfl
  | cons x xs ih =>
      cases h : p x with
      | true =>
          simp [List.find?_cons_of_pos, h, hp x]
      | false =>
          simp [List.find?_cons_of_neg, h, hp x, ih]

theorem countP_map_pres {α : Type} (f : α → α) (p : α → Bool)
    (hp : ∀ x, p (f x) = p x) :
    ∀ l : List α, (l.map f).countP p = l.countP p := by
  intro l
  induction l with
  | nil => rfl
  | cons x xs ih =>
      simp [List.countP_cons, hp x, ih]

theorem find?_append_right {α : Type} (p : α → Bool) {l₁ : List α}
    (h : l₁.find? p = none) (l₂ : List α) :
    (l₁ ++ l₂).find? p = l₂.find? p := by
  induction l₁ with
  | nil => rfl
  | cons x xs ih =>
      cases hx : p x with
      | true => simp [List.find?_cons_of_pos, hx] at h
      | false =>
          rw [List.find?_cons_of_neg _ (by simp [hx])] at h
          simpa [List.find?_cons_of_neg, hx] using ih h

theorem countP_eq_zero_of_find?_none {α : Type} (p : α → Bool) :
    ∀ {l : List α}, l.find? p = none → l.countP p = 0 := by
  intro l
  induction l with
  | nil => intro; rfl
  | cons x xs ih =>
      intro h
      cases hx : p x with
      | true => simp [List.find?_cons_of_pos, hx] at h
      | false =>
          rw [List.find?_cons_of_neg _ (by simp [hx])] at h
          simp [List.countP_cons, hx, ih h]

theorem countP_pos_of_find?_some {α : Type} (p : α → Bool) {l : List α}
    {x : α} (h : l.find? p = some x) : 0 < l.countP p := by
  have hx := List.find?_some h
  have hm := List.mem_of_find?_eq_some h
  exact List.countP_pos_iff.mpr ⟨x, hm, hx⟩

theorem length_filter_not_countP {α : Type} (p : α → Bool) :
    ∀ l : List α, (l.filter (fun x => !(p x))).length + l.countP p = l.length := by
  intro l
  induction l with
  | nil => rfl
  | cons x xs ih =>
      cases hx : p x with
      | true => simp [List.countP_cons, hx, ← ih]; omega
      | false => simp [List.countP_cons, hx, ← ih]; omega

/-! ### Facts about createSubmission -/

theorem resubmitUpdate_pairP (aid sid tid : Nat) (c : Option String) (now : Nat)
    (r : SubmissionRow) :
    pairP aid sid (resubmitUpdate tid c now r) = pairP aid sid r := by
  unfold resubmitUpdate pairP
  split <;> rfl

theorem resubmitUpdate_id (tid : Nat) (c : Option String) (now : Nat)
    (r : SubmissionRow) : (resubmitUpdate tid c now r).id = r.id := by
  unfold resubmitUpdate
  split <;> rfl

theorem resubmitUpdate_self (c : Option String) (now : Nat) (r : SubmissionRow) :
    resubmitUpdate r.id c now r =
      { r with content := jsStrOrNull c, status := .submitted,
               submitted_at := some now, updated_at := now } := by
  simp [resubmitUpdate]

theorem createSubmission_of_found (s : Store) (input : CreateSubmissionInput)
    (studentId now : Nat) (asg : AssignmentRow) (enr : EnrollmentRow)
    (ex : SubmissionRow)
    (ha : s.assignments.find? (fun a => a.id == input.assignment_id) = some asg)
    (he : s.enrollments.find? (fun e =>
        e.user_id == studentId && e.class_id == asg.class_id) = some enr)
    (hex : s.submissions.find? (pairP input.assignment_id studentId) = some ex) :
    createSubmission s input studentId now =
      .ok (resubmitUpdate ex.id input.content now ex,
        { s with submissions :=
            s.submissions.map (resubmitUpdate ex.id input.content now) }) := by
  simp only [createSubmission, ha, he, hex]

theorem createSubmission_of_none (s : Store) (input : CreateSubmissionInput)
    (studentId now : Nat) (asg : AssignmentRow) (enr : EnrollmentRow)
    (ha : s.assignments.find? (fun a => a.id == input.assignment_id) = some asg)
    (he : s.enrollments.find? (fun e =>
        e.user_id == studentId && e.class_id == asg.class_id) = some enr)
    (hex : s.submissions.find? (pairP input.assignment_id studentId) = none) :
    createSubmission s input studentId now =
      .ok (freshSubmission s input studentId now,
        { s with submissions := s.submissions ++ [freshSubmission s input studentId now],
                 nextSubmissionId := s.nextSubmissionId + 1 }) := by
  simp only [createSubmission, ha, he, hex]

theorem pairP_freshSubmission (s : Store) (input : CreateSubmissionInput)
    (studentId now : Nat) :
    pairP input.assignment_id studentId (freshSubmission s input studentId now) = true := by
  simp [pairP, freshSubmission]

/-- C1: with the student enrolled in the existing assignment's class,
calling `createSubmission` (submitWork) twice never yields two Submission
rows for the (assignment, student) pair: the second call updates the
existing row in place (same row id, no table growth), overwriting the
content, resetting the status to `submitted` and refreshing `submitted_at`,
so exactly one Submission row for the pair remains. -/
theorem submitWork_twice_single_row (s : Store) (input : CreateSubmissionInput)
    (studentId now1 now2 : Nat) (asg : AssignmentRow)
    (ha : s.assignments.find? (fun a => a.id == input.assignment_id) = some asg)
    (he : (s.enrollments.find? (fun e =>
        e.user_id == studentId && e.class_id == asg.class_id)).isSome = true)
    (hc : pairCount s input.assignment_id studentId ≤ 1) :
    ∃ r1 s1 r2 s2,
      createSubmission s input studentId now1 = .ok (r1, s1) ∧
      createSubmission s1 input studentId now2 = .ok (r2, s2) ∧
      pairCount s2 input.assignment_id studentId = 1 ∧
      s2.submissions.length = s1.submissions.length ∧
      r2.id = r1.id ∧
      r2.content = jsStrOrNull input.content ∧
      r2.status = .submitted ∧
      r2.submitted_at = some now2 := by
  obtain ⟨enr, henr⟩ := Option.isSome_iff_exists.mp he
  cases hex : s.submissions.find? (pairP input.assignment_id studentId) with
  | some ex =>
      -- first call updates the existing row in place
      have h1 := createSubmission_of_found s input studentId now1 asg enr ex ha henr hex
      -- the second call finds the updated row and updates it again
      have hex2 : (s.submissions.map (resubmitUpdate ex.id input.content now1)).find?
          (pairP input.assignment_id studentId) =
          some (resubmitUpdate ex.id input.content now1 ex) := by
        rw [find?_map_pres _ _ (fun r => resubmitUpdate_pairP _ _ _ _ _ _), hex]
        rfl
      have h2 := createSubmission_of_found
        { s with submissions := s.submissions.map (resubmitUpdate ex.id input.content now1) }
        input studentId now2 asg enr (resubmitUpdate ex.id input.content now1 ex)
        ha henr hex2
      refine ⟨resubmitUpdate ex.id input.content now1 ex,
        { s with submissions := s.submissions.map (resubmitUpdate ex.id input.content now1) },
        resubmitUpdate (resubmitUpdate ex.id input.content now1 ex).id input.content now2
          (resubmitUpdate ex.id input.content now1 ex),
        { s with submissions :=
            ((s.submissions.map (resubmitUpdate ex.id input.content now1)).map
              (resubmitUpdate (resubmitUpdate ex.id input.content now1 ex).id
                input.content now2)) },
        h1, h2, ?_, by simp, ?_, ?_, ?_, ?_⟩
      · -- pair count stays 1
        have hcpos : 0 < pairCount s input.assignment_id studentId :=
          countP_pos_of_find?_some _ hex
        have hcnt2 :
            ((s.submissions.map (resubmitUpdate ex.id input.content now1)).map
              (resubmitUpdate (resubmitUpdate ex.id input.content now1 ex).id
                input.content now2)).countP (pairP input.assignment_id studentId) =
            pairCount s input.assignment_id studentId := by
          rw [countP_map_pres _ _ (fun r => resubmitUpdate_pairP _ _ _ _ _ _),
              countP_map_pres _ _ (fun r => resubmitUpdate_pairP _ _ _ _ _ _)]
          rfl
        show ((s.submissions.map _).map _).countP _ = 1
        omega
      · rw [resubmitUpdate_id, resubmitUpdate_id]
      · simp [resubmitUpdate]
      · simp [resubmitUpdate]
      · simp [resubmitUpdate]
  | none =>
      -- first call inserts a fresh row, the second updates it in place
      have h1 := createSubmission_of_none s input studentId now1 asg enr ha henr hex
      have hex2 : (s.submissions ++ [freshSubmission s input studentId now1]).find?
          (pairP input.assignment_id studentId) =
          some (freshSubmission s input studentId now1) := by
        rw [find?_append_right _ hex]
        exact List.find?_cons_of_pos _ (pairP_freshSubmission s input studentId now1)
      have h2 := createSubmission_of_found
        { s with submissions := s.submissions ++ [freshSubmission s input studentId now1],
                 nextSubmissionId := s.nextSubmissionId + 1 }
        input studentId now2 asg enr (freshSubmission s input studentId now1)
        ha henr hex2
      refine ⟨freshSubmission s input studentId now1,
        { s with submissions := s.submissions ++ [freshSubmission s input studentId now1],
                 nextSubmissionId := s.nextSubmissionId + 1 },
        resubmitUpdate (freshSubmission s input studentId now1).id input.content now2
          (freshSubmission s input studentId now1),
        { s with
            submissions :=
              ((s.submissions ++ [freshSubmission s input studentId now1]).map
                (resubmitUpdate (freshSubmission s input studentId now1).id
                  input.content now2)),
            nextSubmissionId := s.nextSubmissionId + 1 },
        h1, h2, ?_, by simp, ?_, ?_, ?_, ?_⟩
      · -- the pair had no row before, now it has exactly one
        have hzero : s.submissions.countP (pairP input.assignment_id studentId) = 0 :=
          countP_eq_zero_of_find?_none _ hex
        show ((s.submissions ++ [freshSubmission s input studentId now1]).map _).countP _ = 1
        rw [countP_map_pres _ _ (fun r => resubmitUpdate_pairP _ _ _ _ _ _),
            List.countP_append, hzero]
        simp [List.countP_cons, pairP_freshSubmission]
      · rw [resubmitUpdate_id]
      · simp [resubmitUpdate]
      · simp [resubmitUpdate]
      · simp [resubmitUpdate]

/-! ### C2: quiz auto-scoring -/

/-- C2 (amended): for a question with a non-null, non-empty answer key and a
non-essay type, the stored correctness flag is the case-insensitive,
whitespace-trimmed equality of the answer text with the key, and the points
awarded are `question.points` when correct and 0 otherwise; for essay
questions the stored flag is null and the points are 0 regardless of the
answer text. -/
theorem quiz_autoScoring (sid : Nat) (q : QuizQuestionRow) (text : String) :
    (∀ c, q.correct_answer = some c → c ≠ "" → q.question_type ≠ "essay" →
      (storedAnswerRow sid q text).is_correct =
        some (normalizeAnswer text == normalizeAnswer c) ∧
      (storedAnswerRow sid q text).points_earned =
        (if normalizeAnswer text = normalizeAnswer c then q.points else 0)) ∧
    (q.question_type = "essay" →
      (storedAnswerRow sid q text).is_correct = none ∧
      (storedAnswerRow sid q text).points_earned = 0) := by
  constructor
  · intro c hc hne hness
    constructor
    · simp [storedAnswerRow, scoredIsCorrect, autoScorable, jsStrTruthy,
        answerCorrect, hc, hne, hness]
    · by_cases h : normalizeAnswer text = normalizeAnswer c <;>
        simp [storedAnswerRow, awardedPoints, scoredIsCorrect, autoScorable,
          jsStrTruthy, answerCorrect, hc, hne, hness, h]
  · intro hess
    constructor
    · simp [storedAnswerRow, hess]
    · simp [storedAnswerRow, awardedPoints, scoredIsCorrect, autoScorable, hess]

theorem quiz_autoScoring_witness :
    ((storedAnswerRow 1 c2q " 4 ").is_correct =
        some (normalizeAnswer " 4 " == normalizeAnswer "4") ∧
      (storedAnswerRow 1 c2q " 4 ").points_earned =
        (if normalizeAnswer " 4 " = normalizeAnswer "4" then c2q.points else 0)) ∧
    (storedAnswerRow 1 c2q " 4 ").is_correct = some true ∧
    (storedAnswerRow 1 c2q " 4 ").points_earned = 5 ∧
    (storedAnswerRow 1 c2q "5").is_correct = some false ∧
    (storedAnswerRow 1 c2q "5").points_earned = 0 ∧
    (storedAnswerRow 1 c2qEssay "4").is_correct = none ∧
    (storedAnswerRow 1 c2qEssay "4").points_earned = 0 :=
  ⟨(quiz_autoScoring 1 c2q " 4 ").1 "4" rfl (by decide) (by decide),
    by decide, by decide, by decide, by decide, by decide, by decide⟩

/-- C2 counterexample: the question's `correct_answer` is non-null (`some ""`)
and its type is not essay, and the submitted text `""` is trim/case-equal to
the key, yet `submitQuizAnswers` stores `is_correct = some false` and awards
0 of the 5 points: the claimed scoring rule predicts `some true` and 5. -/
theorem quiz_autoScoring_counterexample :
    c2qEmpty.correct_answer = some "" ∧
    c2qEmpty.correct_answer ≠ none ∧
    c2qEmpty.question_type ≠ "essay" ∧
    normalizeAnswer "" = normalizeAnswer "" ∧
    c2qEmpty.points = 5 ∧
    (submitQuizAnswers c2CexStore 1 [{ questionId := 1, answerText := "" }] 3).toOption.map
        (fun p => p.2.quizAnswers.map (fun r => (r.is_correct, r.points_earned))) =
      some [(some false, 0)] ∧
    some false ≠ some (normalizeAnswer "" == normalizeAnswer "") ∧
    (0 : ℤ) ≠ c2qEmpty.points := by
  refine ⟨rfl, by decide, by decide, rfl, by decide, by decide, by decide, by decide⟩

/-! ### C3: question deletion reindexes the remaining questions -/

theorem shiftAfterDeletion_id (aid : Nat) (idx : Int) (r : QuizQuestionRow) :
    (shiftAfterDeletion aid idx r).id = r.id := by
  unfold shiftAfterDeletion
  split <;> rfl

/-- C3: deleting a question by the owning teacher removes exactly the
targeted row; every remaining question of the same assignment whose
`order_index` was greater than the deleted one's is decremented by one, and
every other question is kept unchanged. -/
theorem deleteQuestion_reindex (s : Store) (questionId teacherId : Nat)
    (q : QuizQuestionRow) (a : AssignmentRow)
    (hfind : findQuestionJoinAssignment s questionId = some (q, a))
    (hown : a.teacher_id = teacherId)
    (huniq : s.quizQuestions.countP (fun r => r.id == questionId) = 1) :
    ∃ s', deleteQuizQuestion s questionId teacherId = .ok ((), s') ∧
      s'.quizQuestions.length + 1 = s.quizQuestions.length ∧
      (∀ r ∈ s'.quizQuestions, r.id ≠ questionId) ∧
      (∀ r ∈ s.quizQuestions, r.id ≠ questionId → r.assignment_id = q.assignment_id →
        q.order_index < r.order_index →
        { r with order_index := r.order_index - 1 } ∈ s'.quizQuestions) ∧
      (∀ r ∈ s.quizQuestions, r.id ≠ questionId →
        (r.assignment_id ≠ q.assignment_id ∨ r.order_index ≤ q.order_index) →
        r ∈ s'.quizQuestions) := by
  have heq : (a.teacher_id == teacherId) = true := by simp [hown]
  refine ⟨{ s with quizQuestions :=
      ((s.quizQuestions.filter (fun r => !(r.id == questionId))).map
        (shiftAfterDeletion q.assignment_id q.order_index)) },
    by simp only [deleteQuizQuestion, hfind, heq, if_true], ?_, ?_, ?_, ?_⟩
  · show (List.map _ _).length + 1 = _
    rw [List.length_map]
    have h := length_filter_not_countP (fun r => r.id == questionId) s.quizQuestions
    omega
  · intro r hr
    obtain ⟨r0, hr0, hr0eq⟩ := List.mem_map.mp hr
    have hr0f := (List.mem_filter.mp hr0).2
    intro hcontra
    rw [← hr0eq] at hcontra
    rw [shiftAfterDeletion_id] at hcontra
    simp [hcontra] at hr0f
  · intro r hr hne hassign hlt
    have hrf : r ∈ s.quizQuestions.filter (fun r => !(r.id == questionId)) :=
      List.mem_filter.mpr ⟨hr, by simp [hne]⟩
    have : shiftAfterDeletion q.assignment_id q.order_index r =
        { r with order_index := r.order_index - 1 } := by
      simp [shiftAfterDeletion, hassign, hlt]
    exact this ▸ List.mem_map_of_mem _ hrf
  · intro r hr hne hkeep
    have hrf : r ∈ s.quizQuestions.filter (fun r => !(r.id == questionId)) :=
      List.mem_filter.mpr ⟨hr, by simp [hne]⟩
    have : shiftAfterDeletion q.assignment_id q.order_index r = r := by
      rcases hkeep with h | h
      · simp [shiftAfterDeletion, h]
      · simp [shiftAfterDeletion, not_lt.mpr h]
    exact this ▸ List.mem_map_of_mem _ hrf

theorem deleteQuestion_reindex_witness :
    (∃ s', deleteQuizQuestion c3Store 12 1 = .ok ((), s') ∧
      s'.quizQuestions.length + 1 = c3Store.quizQuestions.length ∧
      (∀ r ∈ s'.quizQuestions, r.id ≠ 12) ∧
      (∀ r ∈ c3Store.quizQuestions, r.id ≠ 12 → r.assignment_id = 10 →
        (2 : Int) < r.order_index →
        { r with order_index := r.order_index - 1 } ∈ s'.quizQuestions) ∧
      (∀ r ∈ c3Store.quizQuestions, r.id ≠ 12 →
        (r.assignment_id ≠ 10 ∨ r.order_index ≤ 2) →
        r ∈ s'.quizQuestions)) ∧
    (deleteQuizQuestion c3Store 12 1).toOption.map
        (fun p => p.2.quizQuestions.map (fun r => (r.id, r.order_index))) =
      some [(11, 1), (13, 2)] :=
  ⟨deleteQuestion_reindex c3Store 12 1
      { id := 12, assignment_id := 10, question_text := "q2",
        question_type := "multiple_choice", correct_answer := some "b",
        answer_choices := none, points := 1, order_index := 2 }
      { id := 10, class_id := 1, teacher_id := 1, title := "Quiz",
        max_points := some 100 }
      (by decide) rfl (by decide),
    by decide⟩

/-! ### C6: quiz answer submission writes the submission, not the gradebook -/

theorem finalizeQuizSubmission_idP (submissionId : Nat) (total : ℤ) (now : Nat)
    (r : SubmissionRow) :
    ((finalizeQuizSubmission submissionId total now r).id == submissionId) =
      (r.id == submissionId) := by
  unfold finalizeQuizSubmission
  split <;> rfl

theorem processAnswer_foldl (submissionId : Nat) :
    ∀ (answers : List AnswerInput) (t : ℤ) (s : Store),
      (answers.foldl (processAnswer submissionId) (t, s)).1 =
        t + quizTotalPoints s.quizQuestions answers ∧
      (answers.foldl (processAnswer submissionId) (t, s)).2.quizQuestions =
        s.quizQuestions ∧
      (answers.foldl (processAnswer submissionId) (t, s)).2.submissions =
        s.submissions ∧
      (answers.foldl (processAnswer submissionId) (t, s)).2.gradebook =
        s.gradebook := by
  intro answers
  induction answers with
  | nil => intro t s; simp [quizTotalPoints]
  | cons ans rest ih =>
      intro t s
      cases hq : s.quizQuestions.find? (fun q => q.id == ans.questionId) with
      | none =>
          have hstep : processAnswer submissionId (t, s) ans = (t, s) := by
            simp [processAnswer, hq]
          rw [List.foldl_cons, hstep]
          obtain ⟨h1, h2, h3, h4⟩ := ih t s
          refine ⟨?_, h2, h3, h4⟩
          rw [h1]
          simp [quizTotalPoints, hq]
      | some q =>
          have hstep : processAnswer submissionId (t, s) ans =
              (t + awardedPoints q ans.answerText,
               { s with quizAnswers :=
                  ((s.quizAnswers.filter (fun r =>
                      !(r.submission_id == submissionId &&
                        r.question_id == ans.questionId))) ++
                    [storedAnswerRow submissionId q ans.answerText]) }) := by
            simp [processAnswer, hq]
          rw [List.foldl_cons, hstep]
          obtain ⟨h1, h2, h3, h4⟩ := ih (t + awardedPoints q ans.answerText)
            { s with quizAnswers :=
                ((s.quizAnswers.filter (fun r =>
                    !(r.submission_id == submissionId &&
                      r.question_id == ans.questionId))) ++
                  [storedAnswerRow submissionId q ans.answerText]) }
          refine ⟨?_, h2, h3, h4⟩
          rw [h1]
          show t + awardedPoints q ans.answerText +
              quizTotalPoints s.quizQuestions rest = _
          simp [quizTotalPoints, hq]
          ring

/-- C6: for an existing submission, `submitQuizAnswers` leaves the gradebook
table untouched, and rewrites the submission row with
`points_earned = ` the sum of the points awarded per answer (0 for unknown,
essay-type, or keyless questions), `status = submitted` and a refreshed
`submitted_at`. -/
theorem submitAnswers_effects (s : Store) (submissionId : Nat)
    (answers : List AnswerInput) (now : Nat) (sub : SubmissionRow)
    (hsub : s.submissions.find? (fun r => r.id == submissionId) = some sub) :
    ∃ s', submitQuizAnswers s submissionId answers now = .ok ((), s') ∧
      s'.gradebook = s.gradebook ∧
      s'.submissions.find? (fun r => r.id == submissionId) =
        some { sub with
          points_earned := some (quizTotalPoints s.quizQuestions answers),
          status := .submitted, submitted_at := some now } ∧
      (∀ q text, q.question_type = "essay" → awardedPoints q text = 0) ∧
      (∀ q text, q.correct_answer = none → awardedPoints q text = 0) := by
  obtain ⟨h1, h2, h3, h4⟩ := processAnswer_foldl submissionId answers 0 s
  have hsome := List.find?_some hsub
  refine ⟨{ (answers.foldl (processAnswer submissionId) (0, s)).2 with
      submissions :=
        (((answers.foldl (processAnswer submissionId) (0, s)).2.submissions).map
          (finalizeQuizSubmission submissionId
            (answers.foldl (processAnswer submissionId) (0, s)).1 now)) },
    by simp only [submitQuizAnswers, hsub], ?_, ?_, ?_, ?_⟩
  · exact h4
  · show ((answers.foldl (processAnswer submissionId) (0, s)).2.submissions.map
        (finalizeQuizSubmission submissionId
          (answers.foldl (processAnswer submissionId) (0, s)).1 now)).find?
        (fun r => r.id == submissionId) = _
    rw [find?_map_pres _ _ (fun r => finalizeQuizSubmission_idP _ _ _ r), h3, hsub]
    show some (finalizeQuizSubmission _ _ _ sub) = _
    rw [h1]
    simp [finalizeQuizSubmission, hsome]
  · intro q text h
    simp [awardedPoints, scoredIsCorrect, autoScorable, h]
  · intro q text h
    simp [awardedPoints, scoredIsCorrect, autoScorable, jsStrTruthy, h]

theorem submitAnswers_effects_witness :
    (∃ s', submitQuizAnswers c6Store 1
        [{ questionId := 11, answerText := " 4 " },
         { questionId := 12, answerText := "blah" }] 9 = .ok ((), s') ∧
      s'.gradebook = c6Store.gradebook ∧
      s'.submissions.find? (fun r => r.id == 1) =
        some { id := 1, assignment_id := 10, student_id := 2,
               content := none, status := .submitted,
               points_earned := some (quizTotalPoints c6Store.quizQuestions
                 [{ questionId := 11, answerText := " 4 " },
                  { questionId := 12, answerText := "blah" }]),
               grade_feedback := none, submitted_at := some 9,
               graded_at := none, graded_by := none, updated_at := 0 } ∧
      (∀ q text, q.question_type = "essay" → awardedPoints q text = 0) ∧
      (∀ q text, q.correct_answer = none → awardedPoints q text = 0)) ∧
    quizTotalPoints c6Store.quizQuestions
      [{ questionId := 11, answerText := " 4 " },
       { questionId := 12, answerText := "blah" }] = 5 :=
  ⟨submitAnswers_effects c6Store 1
      [{ questionId := 11, answerText := " 4 " },
       { questionId := 12, answerText := "blah" }] 9
      { id := 1, assignment_id := 10, student_id := 2,
        content := none, status := .pending, points_earned := none,
        grade_feedback := none, submitted_at := none,
        graded_at := none, graded_by := none, updated_at := 0 }
      (by decide),
    by decide⟩

/-! ### C9: students never see answer keys -/

theorem filter_map_pres {α : Type} (g : α → α) (p : α → Bool)
    (hp : ∀ x, p (g x) = p x) :
    ∀ l : List α, (l.map g).filter p = (l.filter p).map g := by
  intro l
  induction l with
  | nil => rfl
  | cons x xs ih =>
      cases h : p x with
      | true => simp [List.filter_cons, hp, h, ih]
      | false => simp [List.filter_cons, hp, h, ih]

theorem insertByOrder_map (g : QuizQuestionRow → QuizQuestionRow)
    (hg : ∀ q, (g q).order_index = q.order_index) (q : QuizQuestionRow) :
    ∀ l, insertByOrder (g q) (l.map g) = (insertByOrder q l).map g := by
  intro l
  induction l with
  | nil => rfl
  | cons r rs ih =>
      by_cases h : q.order_index ≤ r.order_index
      · simp [insertByOrder, hg, h]
      · simp [insertByOrder, hg, h, ih]

theorem sortByOrderIndex_map (g : QuizQuestionRow → QuizQuestionRow)
    (hg : ∀ q, (g q).order_index = q.order_index) :
    ∀ l, sortByOrderIndex (l.map g) = (sortByOrderIndex l).map g := by
  intro l
  induction l with
  | nil => rfl
  | cons q qs ih => simp only [List.map_cons, sortByOrderIndex, ih,
      insertByOrder_map g hg q]

/-- C9: a caller who is not the assignment's teacher but is enrolled gets
`correct_answer = null` on every returned question, and the response is
identical across any two stores that differ only in the questions' stored
`correct_answer` values. -/
theorem getQuestions_student_hides_keys (s : Store) (assignmentId userId : Nat)
    (a : AssignmentRow) (c : ClassRow)
    (hfind : findAssignmentJoinClass s assignmentId = some (a, c))
    (hnt : a.teacher_id ≠ userId)
    (he : (s.enrollments.find? (fun e =>
        e.user_id == userId && e.class_id == c.id)).isSome = true) :
    ∃ qs, getQuizQuestions s assignmentId userId = .ok qs ∧
      (∀ q ∈ qs, q.correct_answer = none) ∧
      ∀ f : QuizQuestionRow → Option String,
        getQuizQuestions
          { s with quizQuestions :=
              (s.quizQuestions.map (fun q => { q with correct_answer := f q })) }
          assignmentId userId = .ok qs := by
  obtain ⟨enr, henr⟩ := Option.isSome_iff_exists.mp he
  have hteach : (a.teacher_id == userId) = false := by simp [hnt]
  refine ⟨(sortByOrderIndex (s.quizQuestions.filter
      (fun q => q.assignment_id == assignmentId))).map
      (fun q => { q with correct_answer := none }), ?_, ?_, ?_⟩
  · simp only [getQuizQuestions, hfind, hteach, henr, Option.isNone_some,
      Bool.not_false, Bool.true_and, Bool.and_false, if_false, if_true,
      Bool.false_eq_true, reduceIte]
  · intro q hq
    obtain ⟨q0, _, hq0⟩ := List.mem_map.mp hq
    rw [← hq0]
  · intro f
    have hfind2 : findAssignmentJoinClass
        { s with quizQuestions :=
            (s.quizQuestions.map (fun q => { q with correct_answer := f q })) }
        assignmentId = some (a, c) := hfind
    have hmask : (s.quizQuestions.map (fun q =>
        ({ q with correct_answer := f q } : QuizQuestionRow))).filter
          (fun q => q.assignment_id == assignmentId) =
        (s.quizQuestions.filter (fun q => q.assignment_id == assignmentId)).map
          (fun q => { q with correct_answer := f q }) :=
      filter_map_pres (fun q => { q with correct_answer := f q })
        (fun q => q.assignment_id == assignmentId) (fun q => rfl) s.quizQuestions
    have hsort : sortByOrderIndex
        ((s.quizQuestions.filter (fun q => q.assignment_id == assignmentId)).map
          (fun q => { q with correct_answer := f q })) =
        (sortByOrderIndex (s.quizQuestions.filter
          (fun q => q.assignment_id == assignmentId))).map
          (fun q => { q with correct_answer := f q }) :=
      sortByOrderIndex_map (fun q => { q with correct_answer := f q })
        (fun q => rfl) _
    have herase : ∀ q : QuizQuestionRow,
        ({ { q with correct_answer := f q } with correct_answer := none } :
          QuizQuestionRow) = { q with correct_answer := none } := by
      intro q
      rfl
    simp only [getQuizQuestions, hfind2, hteach, henr, Option.isNone_some,
      Bool.not_false, Bool.true_and, Bool.and_false, if_false, if_true,
      Bool.false_eq_true, reduceIte]
    rw [hmask, hsort, List.map_map]
    exact congrArg Except.ok (List.map_congr_left (fun q _ => herase q))

theorem getQuestions_student_hides_keys_witness :
    ∃ qs, getQuizQuestions c6Store 10 2 = .ok qs ∧
      (∀ q ∈ qs, q.correct_answer = none) ∧
      ∀ f : QuizQuestionRow → Option String,
        getQuizQuestions
          { c6Store with quizQuestions :=
              (c6Store.quizQuestions.map (fun q => { q with correct_answer := f q })) }
          10 2 = .ok qs :=
  getQuestions_student_hides_keys c6Store 10 2
    { id := 10, class_id := 1, teacher_id := 1, title := "Quiz",
      max_points := some 100 }
    { id := 1, teacher_id := 1 }
    (by decide) (by decide) (by decide)

theorem submitWork_twice_single_row_witness :
    ∃ r1 s1 r2 s2,
      createSubmission c1Store { assignment_id := 10, content := some "draft" } 2 5 =
        .ok (r1, s1) ∧
      createSubmission s1 { assignment_id := 10, content := some "draft" } 2 6 =
        .ok (r2, s2) ∧
      pairCount s2 10 2 = 1 ∧
      s2.submissions.length = s1.submissions.length ∧
      r2.id = r1.id ∧
      r2.content = jsStrOrNull (some "draft") ∧
      r2.status = .submitted ∧
      r2.submitted_at = some 6 :=
  submitWork_twice_single_row c1Store { assignment_id := 10, content := some "draft" } 2 5 6
    { id := 10, class_id := 1, teacher_id := 1, title := "HW1", max_points := some 100 }
    (by decide) (by decide) (by decide)

/-! ### C4/C5: gradebook projection -/

/-- Evaluation rule for `round` on ℚ from floor bounds. -/
theorem round_rat_eq (x : ℚ) (n : ℤ) (h1 : (n : ℚ) ≤ x + 1/2)
    (h2 : x + 1/2 < (n : ℚ) + 1) : round x = n := by
  rw [round_eq]
  exact Int.floor_eq_iff.mpr ⟨h1, by exact_mod_cast h2⟩

theorem gradeEntryUpdate_pairP (st aid : Nat) (pe pct : ℤ) (lg : String)
    (now : Nat) (g : GradebookRow) :
    gbPairP st aid (gradeEntryUpdate st aid pe pct lg now g) = gbPairP st aid g := by
  unfold gradeEntryUpdate
  split <;> rfl

theorem excuseEntryUpdate_pairP (st aid : Nat) (now : Nat) (g : GradebookRow) :
    gbPairP st aid (excuseEntryUpdate st aid now g) = gbPairP st aid g := by
  unfold excuseEntryUpdate
  split <;> rfl

theorem jsNumOr_pos (x : Option ℤ)
    (hx : x = none ∨ ∃ m, x = some m ∧ 0 < m) :
    jsNumOr x 100 = x.getD 100 ∧ 0 < x.getD 100 := by
  rcases hx with h | ⟨m, hm, hmpos⟩
  · simp [jsNumOr, h]
  · have : m ≠ 0 := by omega
    simp [jsNumOr, hm, this]
    omega

/-- C4: an ownership-checked `updateGradebookEntry` call stores
`percentage = round(pointsEarned / pointsPossible * 100)` with
`pointsPossible` the assignment's `max_points` (or 100 when unset), and a
letter grade by the fixed thresholds ≥90 → A, ≥80 → B, ≥70 → C, ≥60 → D,
else F, on the (student, assignment) row it upserts. -/
theorem upsertGrade_percentage_letter (s : Store) (studentId assignmentId : Nat)
    (pointsEarned : ℤ) (teacherId now : Nat) (a : AssignmentRow) (c : ClassRow)
    (hfind : findAssignmentOwnedJoin s assignmentId teacherId = some (a, c))
    (_hpe : 0 ≤ pointsEarned)
    (hmp : a.max_points = none ∨ ∃ m, a.max_points = some m ∧ 0 < m) :
    0 < a.max_points.getD 100 ∧
    jsNumOr a.max_points 100 = a.max_points.getD 100 ∧
    ∃ (pct : ℤ) (entry : GradebookRow) (s' : Store),
      pct = round ((pointsEarned : ℚ) / ((a.max_points.getD 100 : ℤ) : ℚ) * 100) ∧
      updateGradebookEntry s studentId assignmentId pointsEarned teacherId now =
        .ok (entry, s') ∧
      (∃ g ∈ s'.gradebook, gbPairP studentId assignmentId g = true) ∧
      ∀ g ∈ s'.gradebook, gbPairP studentId assignmentId g = true →
        g.points_earned = some pointsEarned ∧
        g.is_excused = false ∧
        g.percentage = some pct ∧
        g.letter_grade = some (if pct ≥ 90 then "A" else if pct ≥ 80 then "B"
          else if pct ≥ 70 then "C" else if pct ≥ 60 then "D" else "F") := by
  obtain ⟨hpp, hppos⟩ := jsNumOr_pos a.max_points hmp
  refine ⟨hppos, hpp, ?_⟩
  cases hgb : s.gradebook.find? (gbPairP studentId assignmentId) with
  | some existing =>
      refine ⟨computePercentage pointsEarned (jsNumOr a.max_points 100),
        pctMask (gradeEntryUpdate studentId assignmentId pointsEarned
          (computePercentage pointsEarned (jsNumOr a.max_points 100))
          (letterGradeOf (computePercentage pointsEarned (jsNumOr a.max_points 100)))
          now existing),
        { s with gradebook := (s.gradebook.map (gradeEntryUpdate studentId
            assignmentId pointsEarned
            (computePercentage pointsEarned (jsNumOr a.max_points 100))
            (letterGradeOf (computePercentage pointsEarned (jsNumOr a.max_points 100)))
            now)) },
        by rw [computePercentage, hpp],
        by simp only [updateGradebookEntry, hfind, hgb], ?_, ?_⟩
      · exact ⟨gradeEntryUpdate studentId assignmentId pointsEarned _ _ now existing,
          List.mem_map_of_mem _ (List.mem_of_find?_eq_some hgb),
          by rw [gradeEntryUpdate_pairP]; exact List.find?_some hgb⟩
      · intro g hg hgp
        obtain ⟨g0, hg0, rfl⟩ := List.mem_map.mp hg
        rw [gradeEntryUpdate_pairP] at hgp
        simp [gradeEntryUpdate, hgp, letterGradeOf]
  | none =>
      refine ⟨computePercentage pointsEarned (jsNumOr a.max_points 100),
        pctMask
          { id := s.nextGradebookId, student_id := studentId,
            class_id := c.id, assignment_id := assignmentId,
            points_earned := some pointsEarned,
            points_possible := jsNumOr a.max_points 100,
            percentage := some (computePercentage pointsEarned (jsNumOr a.max_points 100)),
            letter_grade := some (letterGradeOf (computePercentage pointsEarned
              (jsNumOr a.max_points 100))),
            is_excused := false, updated_at := now },
        { s with
            gradebook := (s.gradebook ++
              [{ id := s.nextGradebookId, student_id := studentId,
                 class_id := c.id, assignment_id := assignmentId,
                 points_earned := some pointsEarned,
                 points_possible := jsNumOr a.max_points 100,
                 percentage := some (computePercentage pointsEarned
                   (jsNumOr a.max_points 100)),
                 letter_grade := some (letterGradeOf (computePercentage pointsEarned
                   (jsNumOr a.max_points 100))),
                 is_excused := false, updated_at := now }]),
            nextGradebookId := s.nextGradebookId + 1 },
        by rw [computePercentage, hpp],
        by simp only [updateGradebookEntry, hfind, hgb], ?_, ?_⟩
      · refine ⟨
          { id := s.nextGradebookId, student_id := studentId,
            class_id := c.id, assignment_id := assignmentId,
            points_earned := some pointsEarned,
            points_possible := jsNumOr a.max_points 100,
            percentage := some (computePercentage pointsEarned (jsNumOr a.max_points 100)),
            letter_grade := some (letterGradeOf (computePercentage pointsEarned
              (jsNumOr a.max_points 100))),
            is_excused := false, updated_at := now }, ?_, ?_⟩
        · exact List.mem_append_right _ (List.mem_singleton.mpr rfl)
        · simp [gbPairP]
      · intro g hg hgp
        rcases List.mem_append.mp hg with hin | hin
        · have hnone := countP_eq_zero_of_find?_none _ hgb
          have : ¬ (gbPairP studentId assignmentId g = true) := by
            intro hcon
            have := List.countP_pos_iff.mpr ⟨g, hin, hcon⟩
            omega
          exact absurd hgp this
        · rw [List.mem_singleton.mp hin]
          simp [letterGradeOf]

theorem upsertGrade_percentage_letter_witness :
    (0 < ((some 100 : Option ℤ).getD 100) ∧
      jsNumOr (some 100) 100 = (some 100 : Option ℤ).getD 100 ∧
      ∃ (pct : ℤ) (entry : GradebookRow) (s' : Store),
        pct = round ((89 : ℚ) / (((some 100 : Option ℤ).getD 100 : ℤ) : ℚ) * 100) ∧
        updateGradebookEntry c4Store 2 20 89 1 7 = .ok (entry, s') ∧
        (∃ g ∈ s'.gradebook, gbPairP 2 20 g = true) ∧
        ∀ g ∈ s'.gradebook, gbPairP 2 20 g = true →
          g.points_earned = some 89 ∧
          g.is_excused = false ∧
          g.percentage = some pct ∧
          g.letter_grade = some (if pct ≥ 90 then "A" else if pct ≥ 80 then "B"
            else if pct ≥ 70 then "C" else if pct ≥ 60 then "D" else "F")) ∧
    round ((89 : ℚ) / ((100 : ℤ) : ℚ) * 100) = 89 ∧
    letterGradeOf 90 = "A" ∧ letterGradeOf 89 = "B" ∧ letterGradeOf 80 = "B" ∧
    letterGradeOf 79 = "C" ∧ letterGradeOf 60 = "D" ∧ letterGradeOf 59 = "F" :=
  ⟨upsertGrade_percentage_letter c4Store 2 20 89 1 7
      { id := 20, class_id := 1, teacher_id := 1, title := "HW2",
        max_points := some 100 }
      { id := 1, teacher_id := 1 }
      (by decide) (by decide) (Or.inr ⟨100, rfl, by decide⟩),
    round_rat_eq _ 89 (by norm_num) (by norm_num),
    by decide, by decide, by decide, by decide, by decide, by decide⟩

/-- C5: excusing an already-graded (student, assignment) pair by the owning
teacher nulls `points_earned`, `percentage` and `letter_grade` and sets
`is_excused` on that pair's row, without changing the number of rows; a
subsequent `updateGradebookEntry` call on the same pair sets `is_excused`
back to `false` and repopulates the numeric fields. -/
theorem excuse_then_regrade (s : Store) (studentId assignmentId : Nat)
    (pointsEarned : ℤ) (teacherId now1 now2 : Nat) (a : AssignmentRow) (c : ClassRow)
    (hfind : findAssignmentOwnedJoin s assignmentId teacherId = some (a, c))
    (hex : (s.gradebook.find? (gbPairP studentId assignmentId)).isSome = true) :
    ∃ e1 s1 e2 s2,
      excuseAssignment s studentId assignmentId teacherId now1 = .ok (e1, s1) ∧
      s1.gradebook.length = s.gradebook.length ∧
      (∀ g ∈ s1.gradebook, gbPairP studentId assignmentId g = true →
        g.points_earned = none ∧ g.percentage = none ∧ g.letter_grade = none ∧
        g.is_excused = true) ∧
      updateGradebookEntry s1 studentId assignmentId pointsEarned teacherId now2 =
        .ok (e2, s2) ∧
      s2.gradebook.length = s.gradebook.length ∧
      (∀ g ∈ s2.gradebook, gbPairP studentId assignmentId g = true →
        g.is_excused = false ∧ g.points_earned = some pointsEarned ∧
        g.percentage = some (computePercentage pointsEarned
          (jsNumOr a.max_points 100)) ∧
        g.letter_grade = some (letterGradeOf (computePercentage pointsEarned
          (jsNumOr a.max_points 100)))) := by
  obtain ⟨g0, hg0⟩ := Option.isSome_iff_exists.mp hex
  have hfound2 : ((s.gradebook.map (excuseEntryUpdate studentId assignmentId now1)).find?
      (gbPairP studentId assignmentId)) =
      some (excuseEntryUpdate studentId assignmentId now1 g0) := by
    rw [find?_map_pres _ _ (fun g => excuseEntryUpdate_pairP _ _ _ g), hg0]
    rfl
  have hfind1 : findAssignmentOwnedJoin
      { s with gradebook := (s.gradebook.map (excuseEntryUpdate studentId
          assignmentId now1)) } assignmentId teacherId = some (a, c) := hfind
  refine ⟨pctMask (excuseEntryUpdate studentId assignmentId now1 g0),
    { s with gradebook := (s.gradebook.map (excuseEntryUpdate studentId
        assignmentId now1)) },
    pctMask (gradeEntryUpdate studentId assignmentId pointsEarned
      (computePercentage pointsEarned (jsNumOr a.max_points 100))
      (letterGradeOf (computePercentage pointsEarned (jsNumOr a.max_points 100)))
      now2 (excuseEntryUpdate studentId assignmentId now1 g0)),
    { s with gradebook := ((s.gradebook.map (excuseEntryUpdate studentId
        assignmentId now1)).map (gradeEntryUpdate studentId assignmentId
          pointsEarned
          (computePercentage pointsEarned (jsNumOr a.max_points 100))
          (letterGradeOf (computePercentage pointsEarned (jsNumOr a.max_points 100)))
          now2)) },
    by simp only [excuseAssignment, hfind, hg0], by simp, ?_,
    by simp only [updateGradebookEntry, hfind1, hfound2], by simp, ?_⟩
  · intro g hg hgp
    obtain ⟨g1, hg1, rfl⟩ := List.mem_map.mp hg
    rw [excuseEntryUpdate_pairP] at hgp
    simp [excuseEntryUpdate, hgp]
  · intro g hg hgp
    obtain ⟨g1, hg1, rfl⟩ := List.mem_map.mp hg
    rw [gradeEntryUpdate_pairP] at hgp
    simp [gradeEntryUpdate, hgp]

theorem excuse_then_regrade_witness :
    ∃ e1 s1 e2 s2,
      excuseAssignment c5Store 2 20 1 4 = .ok (e1, s1) ∧
      s1.gradebook.length = c5Store.gradebook.length ∧
      (∀ g ∈ s1.gradebook, gbPairP 2 20 g = true →
        g.points_earned = none ∧ g.percentage = none ∧ g.letter_grade = none ∧
        g.is_excused = true) ∧
      updateGradebookEntry s1 2 20 70 1 5 = .ok (e2, s2) ∧
      s2.gradebook.length = c5Store.gradebook.length ∧
      (∀ g ∈ s2.gradebook, gbPairP 2 20 g = true →
        g.is_excused = false ∧ g.points_earned = some 70 ∧
        g.percentage = some (computePercentage 70 (jsNumOr (some 100) 100)) ∧
        g.letter_grade = some (letterGradeOf (computePercentage 70
          (jsNumOr (some 100) 100)))) :=
  excuse_then_regrade c5Store 2 20 70 1 4 5
    { id := 20, class_id := 1, teacher_id := 1, title := "HW2",
      max_points := some 100 }
    { id := 1, teacher_id := 1 }
    (by decide) (by decide)

/-! ### C8: returning for revision touches neither points nor gradebook -/

theorem findSubmissionJoinAssignment_inv (s : Store) (sid : Nat)
    (sub : SubmissionRow) (a : AssignmentRow)
    (h : findSubmissionJoinAssignment s sid = some (sub, a)) :
    s.submissions.find? (fun r => r.id == sid) = some sub ∧
    s.assignments.find? (fun x => x.id == sub.assignment_id) = some a := by
  unfold findSubmissionJoinAssignment at h
  cases h1 : s.submissions.find? (fun r => r.id == sid) with
  | none => rw [h1] at h; exact absurd h (by simp)
  | some sub0 =>
      rw [h1] at h
      have h' : (match s.assignments.find? (fun x => x.id == sub0.assignment_id) with
          | none => none
          | some a => some (sub0, a)) = some (sub, a) := h
      cases h2 : s.assignments.find? (fun x => x.id == sub0.assignment_id) with
      | none => rw [h2] at h'; exact absurd h' (by simp)
      | some a0 =>
          rw [h2] at h'
          simp only [Option.some.injEq, Prod.mk.injEq] at h'
          obtain ⟨h3, h4⟩ := h'
          subst h3
          subst h4
          exact ⟨rfl, h2⟩

theorem returnUpdate_idP (sid : Nat) (fb : String) (tid now : Nat)
    (r : SubmissionRow) :
    ((returnUpdate sid fb tid now r).id == sid) = (r.id == sid) := by
  unfold returnUpdate
  split <;> rfl

/-- C8: `returnSubmissionForRevision` by the owning teacher sets the
submission's status to `returned`, stores the feedback and
`graded_by = graderId`, leaves `points_earned` (and `graded_at`) unchanged,
and performs no write to the gradebook table. -/
theorem returnForRevision_frame (s : Store) (submissionId : Nat)
    (feedback : String) (teacherId now : Nat) (sub : SubmissionRow)
    (a : AssignmentRow)
    (hfind : findSubmissionJoinAssignment s submissionId = some (sub, a))
    (hown : a.teacher_id = teacherId) :
    ∃ ret s',
      returnSubmissionForRevision s submissionId feedback teacherId now =
        .ok (ret, s') ∧
      ret.status = .returned ∧
      ret.grade_feedback = some feedback ∧
      ret.graded_by = some teacherId ∧
      ret.points_earned = sub.points_earned ∧
      ret.graded_at = sub.graded_at ∧
      s'.gradebook = s.gradebook ∧
      s'.submissions.find? (fun r => r.id == submissionId) = some ret := by
  obtain ⟨hsub, hasg⟩ := findSubmissionJoinAssignment_inv s submissionId sub a hfind
  have hsome := List.find?_some hsub
  have heq : (a.teacher_id == teacherId) = true := by simp [hown]
  refine ⟨returnUpdate submissionId feedback teacherId now sub,
    { s with
        submissions := (s.submissions.map
          (returnUpdate submissionId feedback teacherId now)),
        notifications := (s.notifications ++ [returnedNotification sub a]) },
    by simp only [returnSubmissionForRevision, hfind, heq, if_true],
    ?_, ?_, ?_, ?_, ?_, rfl, ?_⟩
  · simp [returnUpdate, hsome]
  · simp [returnUpdate, hsome]
  · simp [returnUpdate, hsome]
  · simp [returnUpdate, hsome]
  · simp [returnUpdate, hsome]
  · show (s.submissions.map _).find? _ = _
    rw [find?_map_pres _ _ (fun r => returnUpdate_idP _ _ _ _ r), hsub]
    rfl

theorem returnForRevision_frame_witness :
    (∃ ret s',
      returnSubmissionForRevision c8Store 1 "please fix" 1 9 = .ok (ret, s') ∧
      ret.status = .returned ∧
      ret.grade_feedback = some "please fix" ∧
      ret.graded_by = some 1 ∧
      ret.points_earned = some 80 ∧
      ret.graded_at = some 3 ∧
      s'.gradebook = c8Store.gradebook ∧
      s'.submissions.find? (fun r => r.id == 1) = some ret) ∧
    (returnSubmissionForRevision c8Store 1 "please fix" 1 9).toOption.map
        (fun p => (p.1.status, p.1.points_earned, p.2.gradebook.length)) =
      some (.returned, some 80, 0) :=
  ⟨returnForRevision_frame c8Store 1 "please fix" 1 9
      { id := 1, assignment_id := 10, student_id := 2,
        content := some "essay", status := .graded,
        points_earned := some 80, grade_feedback := some "ok",
        submitted_at := some 2, graded_at := some 3,
        graded_by := some 1, updated_at := 3 }
      { id := 10, class_id := 1, teacher_id := 1, title := "HW1",
        max_points := some 100 }
      (by decide) rfl,
    by decide⟩

/-! ### C7: failure taxonomy -/

theorem error_taxonomy :
    (∀ (s : Store) (qid tid : Nat) (q : QuizQuestionRow) (a : AssignmentRow),
      findQuestionJoinAssignment s qid = some (q, a) → a.teacher_id ≠ tid →
      deleteQuizQuestion s qid tid =
        .error "Access denied - not assignment owner") ∧
    (∀ (s : Store) (qid tid : Nat),
      findQuestionJoinAssignment s qid = none →
      deleteQuizQuestion s qid tid = .error "Quiz question not found") ∧
    (∀ (s : Store) (input : GradeSubmissionInput) (tid now : Nat)
        (sub : SubmissionRow) (a : AssignmentRow),
      findSubmissionJoinAssignment s input.submission_id = some (sub, a) →
      a.teacher_id ≠ tid →
      gradeSubmission s input tid now =
        .error "Teacher not authorized to grade this submission") ∧
    (∀ (s : Store) (input : GradeSubmissionInput) (tid now : Nat),
      findSubmissionJoinAssignment s input.submission_id = none →
      gradeSubmission s input tid now = .error "Submission not found") ∧
    (∀ (s : Store) (sid : Nat) (fb : String) (tid now : Nat)
        (sub : SubmissionRow) (a : AssignmentRow),
      findSubmissionJoinAssignment s sid = some (sub, a) → a.teacher_id ≠ tid →
      returnSubmissionForRevision s sid fb tid now =
        .error "Teacher not authorized to return this submission") ∧
    (∀ (s : Store) (aid tid : Nat) (a : AssignmentRow) (c : ClassRow),
      s.assignments.find? (fun x => x.id == aid) = some a →
      s.classes.find? (fun x => x.id == a.class_id) = some c →
      c.teacher_id ≠ tid →
      findAssignmentOwnedJoin s aid tid = none) ∧
    (∀ (s : Store) (st aid : Nat) (pe : ℤ) (tid now : Nat),
      findAssignmentOwnedJoin s aid tid = none →
      updateGradebookEntry s st aid pe tid now =
        .error "Assignment not found or access denied") ∧
    (∀ (s : Store) (st aid tid now : Nat),
      findAssignmentOwnedJoin s aid tid = none →
      excuseAssignment s st aid tid now =
        .error "Assignment not found or access denied") ∧
    (∀ (s : Store) (aid tid : Nat),
      s.assignments.find? (fun x => x.id == aid && x.teacher_id == tid) = none →
      getSubmissionsByAssignment s aid tid =
        .error "Assignment not found or not owned by teacher") := by
  refine ⟨?_, ?_, ?_, ?_, ?_, ?_, ?_, ?_, ?_⟩
  · intro s qid tid q a h hne
    have hb : (a.teacher_id == tid) = false := by simp [hne]
    simp only [deleteQuizQuestion, h, hb, Bool.false_eq_true, reduceIte]
  · intro s qid tid h
    simp only [deleteQuizQuestion, h]
  · intro s input tid now sub a h hne
    have hb : (a.teacher_id == tid) = false := by simp [hne]
    simp only [gradeSubmission, h, hb, Bool.false_eq_true, reduceIte]
  · intro s input tid now h
    simp only [gradeSubmission, h]
  · intro s sid fb tid now sub a h hne
    have hb : (a.teacher_id == tid) = false := by simp [hne]
    simp only [returnSubmissionForRevision, h, hb, Bool.false_eq_true, reduceIte]
  · intro s aid tid a c h1 h2 hne
    have hb : (c.teacher_id == tid) = false := by simp [hne]
    simp only [findAssignmentOwnedJoin, h1, h2, hb, Bool.false_eq_true, reduceIte]
  · intro s st aid pe tid now h
    simp only [updateGradebookEntry, h]
  · intro s st aid tid now h
    simp only [excuseAssignment, h]
  · intro s aid tid h
    simp only [getSubmissionsByAssignment, h]

theorem error_taxonomy_counterexample :
    (c7Store.assignments.find? (fun x => x.id == 5)).isSome = true ∧
    (c7Store.assignments.find? (fun x => x.id == 99)).isSome = false ∧
    errOf (updateGradebookEntry c7Store 3 5 50 2 7) =
      some "Assignment not found or access denied" ∧
    errOf (updateGradebookEntry c7Store 3 99 50 2 7) =
      some "Assignment not found or access denied" ∧
    errOf (excuseAssignment c7Store 3 5 2 7) =
      some "Assignment not found or access denied" ∧
    errOf (excuseAssignment c7Store 3 99 2 7) =
      some "Assignment not found or access denied" ∧
    errOf (getSubmissionsByAssignment c7Store 5 2) =
      some "Assignment not found or not owned by teacher" ∧
    errOf (getSubmissionsByAssignment c7Store 99 2) =
      some "Assignment not found or not owned by teacher" := by
  decide

theorem error_taxonomy_witness :
    deleteQuizQuestion c7Store 9 2 =
      .error "Access denied - not assignment owner" ∧
    gradeSubmission c7Store
      { submission_id := 7, points_earned := 50, grade_feedback := none } 2 11 =
      .error "Teacher not authorized to grade this submission" ∧
    returnSubmissionForRevision c7Store 7 "fb" 2 11 =
      .error "Teacher not authorized to return this submission" ∧
    findAssignmentOwnedJoin c7Store 5 2 = none ∧
    updateGradebookEntry c7Store 3 5 50 2 11 =
      .error "Assignment not found or access denied" ∧
    deleteQuizQuestion c7Store 99 2 = .error "Quiz question not found" :=
  ⟨error_taxonomy.1 c7Store 9 2
      { id := 9, assignment_id := 5, question_text := "q",
        question_type := "multiple_choice", correct_answer := some "a",
        answer_choices := none, points := 1, order_index := 1 }
      { id := 5, class_id := 1, teacher_id := 1, title := "HW",
        max_points := some 100 }
      (by decide) (by decide),
    error_taxonomy.2.2.1 c7Store
      { submission_id := 7, points_earned := 50, grade_feedback := none } 2 11
      { id := 7, assignment_id := 5, student_id := 3,
        content := some "w", status := .submitted,
        points_earned := none, grade_feedback := none,
        submitted_at := some 2, graded_at := none,
        graded_by := none, updated_at := 2 }
      { id := 5, class_id := 1, teacher_id := 1, title := "HW",
        max_points := some 100 }
      (by decide) (by decide),
    error_taxonomy.2.2.2.2.1 c7Store 7 "fb" 2 11
      { id := 7, assignment_id := 5, student_id := 3,
        content := some "w", status := .submitted,
        points_earned := none, grade_feedback := none,
        submitted_at := some 2, graded_at := none,
        graded_by := none, updated_at := 2 }
      { id := 5, class_id := 1, teacher_id := 1, title := "HW",
        max_points := some 100 }
      (by decide) (by decide),
    error_taxonomy.2.2.2.2.2.1 c7Store 5 2
      { id := 5, class_id := 1, teacher_id := 1, title := "HW",
        max_points := some 100 }
      { id := 1, teacher_id := 1 }
      (by decide) (by decide) (by decide),
    error_taxonomy.2.2.2.2.2.2.1 c7Store 3 5 50 2 11 (by decide),
    error_taxonomy.2.1 c7Store 99 2 (by decide)⟩

/-! ### C10: a stored 0% comes back as null -/

/-- C10: every gradebook read/write path returns entries through the
falsy-coalescing `percentage || null`, so a stored percentage of 0 comes
back as `null` — indistinguishable from an entry with no percentage. -/
theorem gradebook_zero_percent_masked :
    (jsPctOrNull (some 0) = none) ∧
    (∀ g : GradebookRow, g.percentage = some 0 →
      pctMask g = pctMask { g with percentage := none }) ∧
    (∀ (s : Store) (classId teacherId : Nat) (cl : ClassRow) (g : GradebookRow),
      s.classes.find? (fun x => x.id == classId && x.teacher_id == teacherId) =
        some cl →
      g ∈ s.gradebook → g.class_id = classId → g.percentage = some 0 →
      ∃ out, getGradebookByClass s classId teacherId = .ok out ∧
        { g with percentage := none } ∈ out) ∧
    (∀ (s : Store) (studentId : Nat) (g : GradebookRow),
      g ∈ s.gradebook → g.student_id = studentId → g.percentage = some 0 →
      { g with percentage := none } ∈ getStudentGrades s studentId none) ∧
    (∀ (s : Store) (st aid : Nat) (pe : ℤ) (tid now : Nat)
        (a : AssignmentRow) (c : ClassRow),
      findAssignmentOwnedJoin s aid tid = some (a, c) →
      computePercentage pe (jsNumOr a.max_points 100) = 0 →
      ∃ entry s', updateGradebookEntry s st aid pe tid now = .ok (entry, s') ∧
        entry.percentage = none ∧
        ∃ g ∈ s'.gradebook, gbPairP st aid g = true ∧ g.percentage = some 0) ∧
    (∀ (s : Store) (st aid tid now : Nat) (a : AssignmentRow) (c : ClassRow),
      findAssignmentOwnedJoin s aid tid = some (a, c) →
      ∃ entry s', excuseAssignment s st aid tid now = .ok (entry, s') ∧
        entry.percentage = none) ∧
    (∀ (s : Store) (classId teacherId : Nat) (cl : ClassRow) (g : GradebookRow)
        (u : UserRow) (a : AssignmentRow),
      s.classes.find? (fun x => x.id == classId && x.teacher_id == teacherId) =
        some cl →
      g ∈ s.gradebook → g.class_id = classId → g.percentage = some 0 →
      s.users.find? (fun x => x.id == g.student_id) = some u →
      s.assignments.find? (fun x => x.id == g.assignment_id) = some a →
      ∃ out, exportGradebook s classId teacherId = .ok out ∧
        exportRowOf u a g ∈ out ∧ (exportRowOf u a g).percentage = none) := by
  refine ⟨rfl, ?_, ?_, ?_, ?_, ?_, ?_⟩
  · intro g hp
    simp [pctMask, hp, jsPctOrNull]
  · intro s classId teacherId cl g hcl hg hgc hp
    refine ⟨(s.gradebook.filter (fun x => x.class_id == classId)).map pctMask,
      by simp only [getGradebookByClass, hcl], ?_⟩
    have hmem : g ∈ s.gradebook.filter (fun x => x.class_id == classId) :=
      List.mem_filter.mpr ⟨hg, by simp [hgc]⟩
    have : pctMask g = { g with percentage := none } := by
      simp [pctMask, hp, jsPctOrNull]
    exact this ▸ List.mem_map_of_mem _ hmem
  · intro s studentId g hg hgs hp
    have hmem : g ∈ s.gradebook.filter (fun x =>
        x.student_id == studentId && true) :=
      List.mem_filter.mpr ⟨hg, by simp [hgs]⟩
    have : pctMask g = { g with percentage := none } := by
      simp [pctMask, hp, jsPctOrNull]
    exact this ▸ List.mem_map_of_mem _ hmem
  · intro s st aid pe tid now a c hfind hzero
    cases hgb : s.gradebook.find? (gbPairP st aid) with
    | some existing =>
        refine ⟨pctMask (gradeEntryUpdate st aid pe
            (computePercentage pe (jsNumOr a.max_points 100))
            (letterGradeOf (computePercentage pe (jsNumOr a.max_points 100)))
            now existing),
          { s with gradebook := (s.gradebook.map (gradeEntryUpdate st aid pe
              (computePercentage pe (jsNumOr a.max_points 100))
              (letterGradeOf (computePercentage pe (jsNumOr a.max_points 100)))
              now)) },
          by simp only [updateGradebookEntry, hfind, hgb], ?_, ?_⟩
        · have hpres := List.find?_some hgb
          simp [pctMask, gradeEntryUpdate, hpres, hzero, jsPctOrNull]
        · refine ⟨gradeEntryUpdate st aid pe
              (computePercentage pe (jsNumOr a.max_points 100))
              (letterGradeOf (computePercentage pe (jsNumOr a.max_points 100)))
              now existing,
            List.mem_map_of_mem _ (List.mem_of_find?_eq_some hgb), ?_, ?_⟩
          · rw [gradeEntryUpdate_pairP]
            exact List.find?_some hgb
          · have hpres := List.find?_some hgb
            simp [gradeEntryUpdate, hpres, hzero]
    | none =>
        refine ⟨pctMask
            { id := s.nextGradebookId, student_id := st,
              class_id := c.id, assignment_id := aid,
              points_earned := some pe,
              points_possible := jsNumOr a.max_points 100,
              percentage := some (computePercentage pe (jsNumOr a.max_points 100)),
              letter_grade := some (letterGradeOf (computePercentage pe
                (jsNumOr a.max_points 100))),
              is_excused := false, updated_at := now },
          { s with
              gradebook := (s.gradebook ++
                [{ id := s.nextGradebookId, student_id := st,
                   class_id := c.id, assignment_id := aid,
                   points_earned := some pe,
                   points_possible := jsNumOr a.max_points 100,
                   percentage := some (computePercentage pe
                     (jsNumOr a.max_points 100)),
                   letter_grade := some (letterGradeOf (computePercentage pe
                     (jsNumOr a.max_points 100))),
                   is_excused := false, updated_at := now }]),
              nextGradebookId := s.nextGradebookId + 1 },
          by simp only [updateGradebookEntry, hfind, hgb], ?_, ?_⟩
        · simp [pctMask, hzero, jsPctOrNull]
        · refine ⟨
            { id := s.nextGradebookId, student_id := st,
              class_id := c.id, assignment_id := aid,
              points_earned := some pe,
              points_possible := jsNumOr a.max_points 100,
              percentage := some (computePercentage pe (jsNumOr a.max_points 100)),
              letter_grade := some (letterGradeOf (computePercentage pe
                (jsNumOr a.max_points 100))),
              is_excused := false, updated_at := now },
            List.mem_append_right _ (List.mem_singleton.mpr rfl), ?_, ?_⟩
          · simp [gbPairP]
          · simp [hzero]
  · intro s st aid tid now a c hfind
    cases hgb : s.gradebook.find? (gbPairP st aid) with
    | some existing =>
        refine ⟨pctMask (excuseEntryUpdate st aid now existing),
          { s with gradebook := (s.gradebook.map (excuseEntryUpdate st aid now)) },
          by simp only [excuseAssignment, hfind, hgb], ?_⟩
        have hpres := List.find?_some hgb
        simp [pctMask, excuseEntryUpdate, hpres, jsPctOrNull]
    | none =>
        refine ⟨pctMask
            { id := s.nextGradebookId, student_id := st,
              class_id := c.id, assignment_id := aid,
              points_earned := none,
              points_possible := jsNumOr a.max_points 100,
              percentage := none, letter_grade := none,
              is_excused := true, updated_at := now },
          { s with
              gradebook := (s.gradebook ++
                [{ id := s.nextGradebookId, student_id := st,
                   class_id := c.id, assignment_id := aid,
                   points_earned := none,
                   points_possible := jsNumOr a.max_points 100,
                   percentage := none, letter_grade := none,
                   is_excused := true, updated_at := now }]),
              nextGradebookId := s.nextGradebookId + 1 },
          by simp only [excuseAssignment, hfind, hgb], ?_⟩
        simp [pctMask, jsPctOrNull]
  · intro s classId teacherId cl g u a hcl hg hgc hp hu ha
    refine ⟨(s.gradebook.filter (fun x => x.class_id == classId)).filterMap
        (fun x =>
          match s.users.find? (fun y => y.id == x.student_id),
                s.assignments.find? (fun y => y.id == x.assignment_id) with
          | some y, some z => some (exportRowOf y z x)
          | _, _ => none),
      by simp only [exportGradebook, hcl], ?_, ?_⟩
    · refine List.mem_filterMap.mpr ⟨g, List.mem_filter.mpr ⟨hg, by simp [hgc]⟩, ?_⟩
      rw [hu, ha]
    · simp [exportRowOf, hp, jsPctOrNull]

theorem gradebook_zero_percent_masked_witness :
    (∃ out, getGradebookByClass c10Store 1 1 = .ok out ∧
      ({ id := 1, student_id := 2, class_id := 1, assignment_id := 20,
         points_earned := some 0, points_possible := 100,
         percentage := none, letter_grade := some "F",
         is_excused := false, updated_at := 3 } : GradebookRow) ∈ out) ∧
    getStudentGrades c10Store 2 none =
      [{ id := 1, student_id := 2, class_id := 1, assignment_id := 20,
         points_earned := some 0, points_possible := 100,
         percentage := none, letter_grade := some "F",
         is_excused := false, updated_at := 3 }] :=
  ⟨gradebook_zero_percent_masked.2.2.1 c10Store 1 1
      { id := 1, teacher_id := 1 }
      { id := 1, student_id := 2, class_id := 1, assignment_id := 20,
        points_earned := some 0, points_possible := 100,
        percentage := some 0, letter_grade := some "F",
        is_excused := false, updated_at := 3 }
      (by decide) (by decide) rfl rfl,
    by decide⟩

end SchoolLMS
